import Mathlib

/-!
Verification development for the QuickStatements batch-edit worker
(Rust sources: qs_parser.rs, qs_command.rs, qs_bot.rs, qs_config.rs).

The Rust code is shallowly embedded: `serde_json::Value` becomes the
inductive `Json` (objects are insertion-ordered association lists, which
matches how every compared object is built by a single code path; object
key order is therefore immaterial to the comparisons the code performs),
`f64` numbers become exact fixed-point decimals (`Dec`),
strings being scanned character by character become `List Char`, and the
regexes of the source are hand-translated into the exact match/capture
functions they denote on their input space.  MySQL and HTTP side effects
are external to the embedded core: the executor is modelled as a state
transformer over the in-memory bot state, receiving the wiki API
response JSON as an explicit argument.
-/

/-! ### Character and list preliminaries -/

def isAsciiDigit (c : Char) : Bool := '0' ≤ c ∧ c ≤ '9'

def isLowerAlpha (c : Char) : Bool := 'a' ≤ c ∧ c ≤ 'z'

def isSpaceChar (c : Char) : Bool := c = ' ' ∨ c = '\t' ∨ c = '\n' ∨ c = '\r'

/-- Rust `str::trim` (restricted to ASCII whitespace, which is all the
inputs in scope contain). -/
def trimChars (l : List Char) : List Char :=
  ((l.dropWhile isSpaceChar).reverse.dropWhile isSpaceChar).reverse

def trimStr (s : String) : String := ⟨trimChars s.data⟩

/-- Rust `str::split(sep)`: splits on every occurrence of the separator,
keeping empty segments. -/
def splitOnChar (sep : Char) : List Char → List (List Char)
  | [] => [[]]
  | c :: rest =>
    let r := splitOnChar sep rest
    if c = sep then [] :: r
    else
      match r with
      | [] => [[c]]
      | hd :: tl => (c :: hd) :: tl

/-- Digits of a natural number, base 10, no leading zeros (Rust
`u64::to_string` / `format!("{}")`). -/
def natDigits (n : Nat) : List Char :=
  (Nat.toDigits 10 n)

/-- `u64::from_str`: succeeds exactly on nonempty all-digit strings
(the u64 overflow bound is not modelled; no claim depends on it). -/
def parseNatDigits (l : List Char) : Option Nat :=
  if l ≠ [] ∧ l.all isAsciiDigit then
    some (l.foldl (fun acc c => acc * 10 + (c.toNat - '0'.toNat)) 0)
  else none

/-- Rust `format!("{:02}", n)`: decimal, left-padded with '0' to width 2. -/
def pad2 (n : Nat) : List Char :=
  if n < 10 then '0' :: natDigits n else natDigits n

/-- Exact decimal fixed-point number: `num / 10^exp`.  This embeds the
`f64` values of the source: every float in scope is parsed from a short
decimal literal, on which `f64` arithmetic and comparison are exact. -/
structure Dec where
  num : Int
  exp : Nat
  deriving DecidableEq

/-- Numeric (f64) equality of decimals: cross-multiplied comparison. -/
def Dec.deq (a b : Dec) : Bool :=
  a.num * ((10 ^ b.exp : Nat) : Int) = b.num * ((10 ^ a.exp : Nat) : Int)

def Dec.add (a b : Dec) : Dec :=
  ⟨a.num * ((10 ^ b.exp : Nat) : Int) + b.num * ((10 ^ a.exp : Nat) : Int),
   a.exp + b.exp⟩

def Dec.sub (a b : Dec) : Dec :=
  ⟨a.num * ((10 ^ b.exp : Nat) : Int) - b.num * ((10 ^ a.exp : Nat) : Int),
   a.exp + b.exp⟩

def Dec.ofNat (n : Nat) : Dec := ⟨n, 0⟩

instance (n : Nat) : OfNat Dec n := ⟨⟨n, 0⟩⟩

/-- `f64::from_str` on the decimal fragments the regexes admit: optional
sign, digits, at most one dot, at least one digit. -/
def parseF64 (l : List Char) : Option Dec :=
  let (neg, body) :=
    match l with
    | '+' :: rest => (false, rest)
    | '-' :: rest => (true, rest)
    | _ => (false, l)
  let signed := fun (n : Int) => if neg then -n else n
  match splitOnChar '.' body with
  | [ip] =>
    match parseNatDigits ip with
    | some n => some ⟨signed n, 0⟩
    | none => none
  | [ip, fp] =>
    if (ip ≠ [] ∨ fp ≠ []) ∧ ip.all isAsciiDigit ∧ fp.all isAsciiDigit then
      let ipv := ip.foldl (fun acc c => acc * 10 + (c.toNat - '0'.toNat)) 0
      let fpv := fp.foldl (fun acc c => acc * 10 + (c.toNat - '0'.toNat)) 0
      some ⟨signed (ipv * (10 ^ fp.length : Nat) + fpv), fp.length⟩
    else none
  | _ => none

/-! ### JSON model (`serde_json::Value`) -/

inductive Json where
  | null : Json
  | bool (b : Bool) : Json
  | num (q : Dec) : Json
  | str (s : String) : Json
  | arr (elems : List Json) : Json
  | obj (fields : List (String × Json)) : Json

/-- Structural equality of JSON values (serde_json `PartialEq`); objects
are compared fieldwise in order, which coincides with map equality on
all objects this code compares (both sides are built by one code path). -/
def Json.beq : Json → Json → Bool
  | .null, .null => true
  | .bool a, .bool b => a == b
  | .num a, .num b => a == b
  | .str a, .str b => a == b
  | .arr a, .arr b => go a b
  | .obj a, .obj b => goObj a b
  | _, _ => false
where
  go : List Json → List Json → Bool
    | [], [] => true
    | x :: xs, y :: ys => Json.beq x y && go xs ys
    | _, _ => false
  goObj : List (String × Json) → List (String × Json) → Bool
    | [], [] => true
    | (k, x) :: xs, (l, y) :: ys => k == l && Json.beq x y && goObj xs ys
    | _, _ => false

/-- `v["k"]` (the `Index` impl): member lookup on objects, `Null` on a
missing key or a non-object. -/
def Json.getKey (j : Json) (k : String) : Json :=
  match j with
  | .obj fields =>
    match fields.lookup k with
    | some v => v
    | none => .null
  | _ => .null

/-- Update an association list in place, appending when absent. -/
def setField (k : String) (x : Json) : List (String × Json) → List (String × Json)
  | [] => [(k, x)]
  | (k', v) :: rest =>
    if k' = k then (k', x) :: rest else (k', v) :: setField k x rest

/-- `v["k"] = x` (the `IndexMut` impl): inserts/updates on objects, turns
`Null` into a fresh one-field object.  (serde_json panics on other
non-objects; that case is unreachable in the embedded call sites and is
modelled as a no-op.) -/
def Json.setKey (j : Json) (k : String) (x : Json) : Json :=
  match j with
  | .obj fields => .obj (setField k x fields)
  | .null => .obj [(k, x)]
  | _ => j

def Json.asStr : Json → Option String
  | .str s => some s
  | _ => none

def Json.asI64 : Json → Option Int
  | .num q => if q.exp = 0 then some q.num else none
  | _ => none

def Json.asF64 : Json → Option Dec
  | .num q => some q
  | _ => none

def Json.asArr : Json → Option (List Json)
  | .arr elems => some elems
  | _ => none

def Json.isObj : Json → Bool
  | .obj _ => true
  | _ => false

def Json.isArr : Json → Bool
  | .arr _ => true
  | _ => false

/-- Decimal digits of an integer (Rust `i64`/`f64` integral Display). -/
def intDigits : Int → List Char
  | .ofNat n => natDigits n
  | .negSucc n => '-' :: natDigits (n + 1)

/-- Left-pad digits with zeros to the given width. -/
def padZeros (w : Nat) (l : List Char) : List Char :=
  List.replicate (w - l.length) '0' ++ l

/-- Decimal rendering of a `Dec` (f64 `Display` on the decimals in
scope; trailing fractional zeros are not trimmed, a case no compared
value produces). -/
def Dec.render (d : Dec) : List Char :=
  if d.exp = 0 then intDigits d.num
  else
    let n := d.num.natAbs
    let ip := n / 10 ^ d.exp
    let fp := n % 10 ^ d.exp
    (if d.num < 0 then ['-'] else []) ++ natDigits ip
      ++ '.' :: padZeros d.exp (natDigits fp)

/-- Compact serde_json rendering (`serde_json::to_string`).  Numbers in
scope are integers; non-integral rationals render with their reduced
fraction, a case no embedded claim exercises. -/
def Json.render : Json → String
  | .null => "null"
  | .bool b => if b then "true" else "false"
  | .num q => ⟨q.render⟩
  | .str s => "\x22" ++ s ++ "\x22"
  | .arr elems => "[" ++ renderSep elems ++ "]"
  | .obj fields => "\x7b" ++ renderObjSep fields ++ "\x7d"
where
  renderSep : List Json → String
    | [] => ""
    | [x] => Json.render x
    | x :: xs => Json.render x ++ "," ++ renderSep xs
  renderObjSep : List (String × Json) → String
    | [] => ""
    | [(k, v)] => "\x22" ++ k ++ "\x22:" ++ Json.render v
    | (k, v) :: xs => "\x22" ++ k ++ "\x22:" ++ Json.render v ++ "," ++ renderObjSep xs

/-! ### Wikibase data model

The `wikibase` crate is external to the repository; the structures below
carry exactly the fields the repository reads (`label_in_locale`,
`claims`, `main_snak`, `data_value`, `sitelinks`, the typed value
accessors), with the Wikibase datavalue type names of spec section 4.1. -/

inductive EntityType where
  | item | property | lexeme | mediainfo
  deriving DecidableEq

/-- `EntityType::new_from_id`: dispatch on the leading letter of the id. -/
def EntityType.newFromId (id : String) : Except String EntityType :=
  match id.data with
  | 'Q' :: _ => .ok .item
  | 'P' :: _ => .ok .property
  | 'L' :: _ => .ok .lexeme
  | 'M' :: _ => .ok .mediainfo
  | _ => .error "unknown entity type"

/-- Serde rendering of `EntityType` (lowercase type name, spec section 3). -/
def EntityType.toJson : EntityType → Json
  | .item => .str "item"
  | .property => .str "property"
  | .lexeme => .str "lexeme"
  | .mediainfo => .str "mediainfo"

structure EntityValue where
  entityType : EntityType
  id : String
  deriving DecidableEq

structure Coordinate where
  globe : String
  latitude : Dec
  longitude : Dec
  deriving DecidableEq

structure MonoLingualText where
  text : String
  language : String
  deriving DecidableEq

structure QuantityValue where
  amount : Dec
  lowerBound : Option Dec
  unit : String
  upperBound : Option Dec
  deriving DecidableEq

/-- `TimeValue` with the fields the repository reads; `before`, `after`
and `timezone` are always constructed as 0 (`TimeValue::new(0, 0, cal,
precision, time, 0)`).  The time string is kept as a character list. -/
structure TimeValue where
  time : List Char
  precision : Nat
  calendarmodel : String
  deriving DecidableEq

structure LocaleString where
  language : String
  value : String
  deriving DecidableEq

structure SiteLink where
  site : String
  title : String
  deriving DecidableEq

/-- `qs_parser::EntityID`. -/
inductive EntityID where
  | id (ev : EntityValue)
  | last
  deriving DecidableEq

/-- `Display for EntityID`. -/
def EntityID.toStr : EntityID → String
  | .id ev => ev.id
  | .last => "LAST"

inductive DataValueType where
  | globeCoordinate | monoLingualText | entityId | quantityType | stringType | timeValue
  deriving DecidableEq

/-- `DataValueType::string_value` (Wikibase datavalue envelope types). -/
def DataValueType.stringValue : DataValueType → String
  | .globeCoordinate => "globecoordinate"
  | .monoLingualText => "monolingualtext"
  | .entityId => "wikibase-entityid"
  | .quantityType => "quantity"
  | .stringType => "string"
  | .timeValue => "time"

/-- `wikibase::Value` (the typed value inside an entity's datavalue). -/
inductive WikibaseValue where
  | coordinate (c : Coordinate)
  | monoLingual (m : MonoLingualText)
  | entity (e : EntityValue)
  | quantity (q : QuantityValue)
  | stringValue (s : String)
  | time (t : TimeValue)
  deriving DecidableEq

structure DataValue where
  valueType : DataValueType
  value : WikibaseValue
  deriving DecidableEq

structure Snak where
  property : String
  datavalue : Option DataValue
  deriving DecidableEq

/-- `wikibase::Statement`: only the id and main snak are read. -/
structure WbStatement where
  id : Option String
  mainsnak : Snak
  deriving DecidableEq

structure Entity where
  id : String
  labels : List LocaleString
  descriptions : List LocaleString
  claims : List WbStatement
  sitelinks : Option (List SiteLink)
  deriving DecidableEq

/-- `Entity::label_in_locale`. -/
def Entity.labelInLocale (e : Entity) (lang : String) : Option String :=
  (e.labels.find? (fun ls => ls.language = lang)).map (fun ls => ls.value)

/-- `Entity::description_in_locale`. -/
def Entity.descriptionInLocale (e : Entity) (lang : String) : Option String :=
  (e.descriptions.find? (fun ls => ls.language = lang)).map (fun ls => ls.value)

/-! ### qs_parser: the value grammar

Each regex of `parse_value` / `parse_quantity` / `parse_time` is
hand-translated into the capture function it denotes; the separator
characters are never members of the adjacent character classes, so each
translation below is the unique decomposition the (backtracking,
greedy) regex engine finds. -/

def gregorianCalendar : String := "http://www.wikidata.org/entity/Q1985727"

def globeEarth : String := "http://www.wikidata.org/entity/Q2"

/-- `PHP_COMPATIBILITY` flag of qs_parser.rs. -/
def phpCompatibility : Bool := true

/-- `qs_parser::Value` (the parser's tagged value union). -/
inductive QSValue where
  | entity (e : EntityID)
  | globeCoordinate (c : Coordinate)
  | monoLingualText (m : MonoLingualText)
  | quantity (q : QuantityValue)
  | stringV (s : String)
  | time (t : TimeValue)
  deriving DecidableEq

/-- Split at the last occurrence of `sep`; `none` when absent. -/
def splitLastAt (sep : Char) (l : List Char) : Option (List Char × List Char) :=
  let rev := l.reverse
  let sufRev := rev.takeWhile (fun c => c ≠ sep)
  match rev.drop sufRev.length with
  | c :: preRev => if c = sep then some (preRev.reverse, sufRev.reverse) else none
  | [] => none

/-- Body of the unsigned decimal class `\d+\.?\d*`. -/
def isUnsignedDec (l : List Char) : Bool :=
  let ds := l.takeWhile isAsciiDigit
  !ds.isEmpty &&
    (match l.drop ds.length with
     | [] => true
     | '.' :: fs => fs.all isAsciiDigit
     | _ => false)

/-- The signed decimal class `[-+]{0,1}\d+\.{0,1}\d*`. -/
def isSignedDec (l : List Char) : Bool :=
  match l with
  | '+' :: rest => isUnsignedDec rest
  | '-' :: rest => isUnsignedDec rest
  | _ => isUnsignedDec l

/-- `RE_QUANTITY_UNIT = ^(.+)U(\d+)$`: the greedy first group forces the
match at the last `U`, whose suffix must be nonempty digits. -/
def unitCapture (l : List Char) : Option (List Char × List Char) :=
  match splitLastAt 'U' l with
  | some (p, s) => if p ≠ [] ∧ s ≠ [] ∧ s.all isAsciiDigit then some (p, s) else none
  | none => none

/-- `RE_QUANTITY_TOLERANCE = ^([-+]?\d+\.?\d*)~(\d+\.?\d*)$`: `~` is not
in either class, so the split is at the unique `~`. -/
def toleranceCapture (l : List Char) : Option (List Char × List Char) :=
  match splitOnChar '~' l with
  | [a, b] => if isSignedDec a ∧ isUnsignedDec b then some (a, b) else none
  | _ => none

/-- `RE_QUANTITY_RANGE = ^([-+]?\d+\.?\d*)\[([-+]?\d+\.?\d*),([-+]?\d+\.?\d*)\]$`. -/
def rangeCapture (l : List Char) : Option (List Char × List Char × List Char) :=
  match splitOnChar '[' l with
  | [a, rest] =>
    match rest.reverse with
    | ']' :: midRev =>
      (match splitOnChar ',' midRev.reverse with
       | [b, c] =>
         if isSignedDec a ∧ isSignedDec b ∧ isSignedDec c then some (a, b, c) else none
       | _ => none)
    | _ => none
  | _ => none

/-- `QuickStatementsParser::parse_quantity`. -/
def parseQuantity (value : List Char) : Option QSValue :=
  let (value, unit) :=
    match unitCapture value with
    | some (p, ds) => (p, "http://www.wikidata.org/entity/Q" ++ String.mk ds)
    | none => (value, "1")
  if isSignedDec value then
    (parseF64 value).map (fun a => QSValue.quantity ⟨a, none, unit, none⟩)
  else
    match toleranceCapture value with
    | some (a, t) => do
      let av ← parseF64 a
      let tv ← parseF64 t
      pure (QSValue.quantity ⟨av, some (av.sub tv), unit, some (av.add tv)⟩)
    | none =>
      match rangeCapture value with
      | some (a, b, c) => do
        let av ← parseF64 a
        let bv ← parseF64 b
        let cv ← parseF64 c
        pure (QSValue.quantity ⟨av, some bv, unit, some cv⟩)
      | none => none

/-- `RE_TIME = ^[\+\-]{0,1}\d+` (prefix match only). -/
def timeStartMatch (l : List Char) : Bool :=
  match l with
  | '+' :: c :: _ => isAsciiDigit c
  | '-' :: c :: _ => isAsciiDigit c
  | c :: _ => isAsciiDigit c
  | [] => false

/-- Sign handling of `parse_time`: strip a leading `+`/`-`, remember it. -/
def stripSignTime (l : List Char) : Char × List Char :=
  match l with
  | '+' :: rest => ('+', rest)
  | '-' :: rest => ('-', rest)
  | _ => ('+', l)

/-- `RE_PRECISION = ^(.+)/(\d+)$` applied to the body: matches at the
last `/`, requiring a nonempty all-digit suffix and nonempty body. -/
def precisionCapture (l : List Char) : Option (List Char × Nat) :=
  match splitLastAt '/' l with
  | some (p, s) =>
    if p ≠ [] ∧ s ≠ [] ∧ s.all isAsciiDigit then
      (parseNatDigits s).map (fun n => (p, n))
    else none
  | none => none

/-- `(v, precision)` after the `RE_PRECISION` match, defaulting to 9. -/
def precSplit (l : List Char) : List Char × Nat :=
  match precisionCapture l with
  | some (p, n) => (p, n)
  | none => (l, 9)

/-- `v.replace('T', "-").replace('Z', "").replace(':', "-")`. -/
def timeReplace (l : List Char) : List Char :=
  (l.filter (fun c => c ≠ 'Z')).map (fun c => if c = 'T' ∨ c = ':' then '-' else c)

/-- The leading-zero peel of `parse_time` (runs while
`PHP_COMPATIBILITY && year.starts_with('0') && year != "0"`). -/
def peelZeros : List Char → List Char × List Char
  | '0' :: rest =>
    if phpCompatibility ∧ rest ≠ [] then
      let (z, y) := peelZeros rest
      ('0' :: z, y)
    else ([], '0' :: rest)
  | l => ([], l)

structure TimeFields where
  lead : Char
  leadingZeros : List Char
  year : Nat
  month : Nat
  day : Nat
  hour : Nat
  minute : Nat
  second : Nat
  precision : Nat
  deriving DecidableEq

/-- The precision clamp of `parse_time` (qs_parser.rs lines 413-421):
a non-compat cap at 11, then day=0 caps at 10, month=0 caps at 9. -/
def clampPrecision (p month day : Nat) : Nat :=
  let p1 := if 12 ≤ p ∧ phpCompatibility = false then 11 else p
  let p2 := if day = 0 ∧ 11 ≤ p1 then 10 else p1
  if month = 0 ∧ 10 ≤ p2 then 9 else p2

/-- Field extraction of `parse_time`, before the precision clamp.  The
sequential `?` parses of the source are pure, so they are written as
one simultaneous match: any failing component yields `None`. -/
def parseRawTimeFields (s : List Char) : Option TimeFields :=
  if timeStartMatch s then
    match stripSignTime s with
    | (lead, v0) =>
      match precSplit v0 with
      | (v1, precision) =>
        match splitOnChar '-' (timeReplace v1) with
        | [] => none
        | yearRaw :: rest =>
          match peelZeros yearRaw with
          | (zeros, yearTrim) =>
            match parseNatDigits yearTrim,
                  parseNatDigits ((rest.get? 0).getD ['1']),
                  parseNatDigits ((rest.get? 1).getD ['1']),
                  parseNatDigits ((rest.get? 2).getD ['0']),
                  parseNatDigits ((rest.get? 3).getD ['0']),
                  parseNatDigits ((rest.get? 4).getD ['0']) with
            | some year, some month, some day, some hour, some minute, some second =>
              some ⟨lead, zeros, year, month, day, hour, minute, second, precision⟩
            | _, _, _, _, _, _ => none
  else none

def applyPrecisionClamp (f : TimeFields) : TimeFields :=
  { f with precision := clampPrecision f.precision f.month f.day }

def parseTimeFields (s : List Char) : Option TimeFields :=
  (parseRawTimeFields s).map applyPrecisionClamp

/-- The `format!` of `parse_time` (h/m/s preserved in compat mode). -/
def formatTimeFields (f : TimeFields) : List Char :=
  let (h, m, sec) :=
    if phpCompatibility then (f.hour, f.minute, f.second) else (0, 0, 0)
  f.lead :: f.leadingZeros ++ natDigits f.year
    ++ '-' :: pad2 f.month ++ '-' :: pad2 f.day
    ++ 'T' :: pad2 h ++ ':' :: pad2 m ++ ':' :: pad2 sec ++ ['Z']

/-- `QuickStatementsParser::parse_time`. -/
def parseTime (s : List Char) : Option QSValue :=
  (parseTimeFields s).map (fun f =>
    QSValue.time ⟨formatTimeFields f, f.precision, gregorianCalendar⟩)

/-- The coordinate component class `[+-]?[0-9.-]+` (note `-` is also a
class member, so a bare `-` still matches through the class). -/
def isCoordNum (l : List Char) : Bool :=
  let inClass := fun c => isAsciiDigit c || c = '.' || c = '-'
  match l with
  | '+' :: r => !r.isEmpty && r.all inClass
  | _ => !l.isEmpty && l.all inClass

/-- `RE_COORDINATE = ^@([+-]?[0-9.-]+)/([+-]?[0-9.-]+)$`: `/` is not in
the class, so the string must contain exactly one `/`. -/
def coordCaptures (l : List Char) : Option (List Char × List Char) :=
  match l with
  | '@' :: rest =>
    match splitOnChar '/' rest with
    | [a, b] => if isCoordNum a ∧ isCoordNum b then some (a, b) else none
    | _ => none
  | _ => none

/-- `RE_MONOLINGUAL_STRING = ^([a-z-]+):"(.*)"$`: the class excludes
`:`, so the language capture is the maximal class prefix; the greedy
text capture runs to the final quote (and `.` excludes newlines). -/
def monoCaptures (l : List Char) : Option (String × String) :=
  let lang := l.takeWhile (fun c => isLowerAlpha c || c = '-')
  if lang ≠ [] then
    match l.drop lang.length with
    | ':' :: '"' :: rest =>
      match rest.reverse with
      | '"' :: midRev =>
        let mid := midRev.reverse
        if mid.all (fun c => c ≠ '\n') then some (⟨lang⟩, ⟨mid⟩) else none
      | _ => none
    | _ => none
  else none

/-- `RE_STRING = ^"(.*)"$`. -/
def stringCapture (l : List Char) : Option String :=
  match l with
  | '"' :: rest =>
    match rest.reverse with
    | '"' :: midRev =>
      let mid := midRev.reverse
      if mid.all (fun c => c ≠ '\n') then some ⟨mid⟩ else none
    | _ => none
  | _ => none

/-- `RE_ENTITY_ID = ^[A-Z]\d+$`. -/
def entityIdMatch (l : List Char) : Bool :=
  match l with
  | c :: rest => ('A' ≤ c && c ≤ 'Z') && !rest.isEmpty && rest.all isAsciiDigit
  | [] => false

/-- Rust `str::to_uppercase` (inputs in scope are ASCII). -/
def strToUpper (s : String) : String := ⟨s.data.map Char.toUpper⟩

/-- `QuickStatementsParser::parse_item_id`. -/
def parseItemId (id : Option String) : Except String EntityID :=
  match id with
  | some origId =>
    let id := strToUpper (trimStr origId)
    if id = "LAST" then .ok .last
    else if entityIdMatch id.data then
      match EntityType.newFromId id with
      | .ok et => .ok (.id ⟨et, id⟩)
      | .error e => .error (id ++ ": " ++ e)
    else .error ("Not a valid entity ID: " ++ origId)
  | none => .error "Missing value"

/-- `QuickStatementsParser::parse_value`: the alternatives are tried in
the source's order — coordinate, quantity, time, monolingual text,
quoted string, entity id — and inside the coordinate arm a failing
float parse aborts the whole function (the `?` operator). -/
def parseValue (value : String) : Option QSValue :=
  let value := trimChars value.data
  match coordCaptures value with
  | some (a, b) =>
    (match parseF64 a, parseF64 b with
     | some lat, some lon => some (QSValue.globeCoordinate ⟨globeEarth, lat, lon⟩)
     | _, _ => none)
  | none =>
  match parseQuantity value with
  | some t => some t
  | none =>
  match parseTime value with
  | some t => some t
  | none =>
  match monoCaptures value with
  | some (lang, text) => some (QSValue.monoLingualText ⟨text, lang⟩)
  | none =>
  match stringCapture value with
  | some text => some (QSValue.stringV text)
  | none =>
  match parseItemId (some ⟨value⟩) with
  | .ok id => some (QSValue.entity id)
  | .error _ => none

/-- Serde serialization of `TimeValue` (all constructed with
timezone/before/after 0). -/
def timeValueToJson (v : TimeValue) : Json :=
  .obj [("time", .str ⟨v.time⟩), ("timezone", .num 0), ("before", .num 0),
        ("after", .num 0), ("precision", .num (Dec.ofNat v.precision)),
        ("calendarmodel", .str v.calendarmodel)]

/-- `f64` Display used for the quantity amount. -/
def renderAmount (q : Dec) : String := ⟨q.render⟩

/-- `qs_parser::Value::to_json` (the datavalue envelope).  The source
always returns `Ok`; the entity arm hard-codes `entity-type: "item"`. -/
def QSValue.toJson : QSValue → Json
  | .entity id =>
    .obj [("type", .str "wikibase-entityid"),
          ("value", .obj [("entity-type", .str "item"), ("id", .str id.toStr)])]
  | .stringV v => .obj [("type", .str "string"), ("value", .str v)]
  | .time v => .obj [("value", timeValueToJson v), ("type", .str "time")]
  | .globeCoordinate v =>
    .obj [("value", .obj [("globe", .str v.globe), ("latitude", .num v.latitude),
                          ("longitude", .num v.longitude),
                          ("precision", .num ⟨1, 6⟩)]),
          ("type", .str "globecoordinate")]
  | .monoLingualText v =>
    .obj [("value", .obj [("text", .str v.text), ("language", .str v.language)]),
          ("type", .str "monolingualtext")]
  | .quantity v =>
    .obj [("value", .obj [("amount", .str (renderAmount v.amount)),
                          ("unit", .str v.unit)]),
          ("type", .str "quantity")]

/-! ### qs_parser: line parsing, command JSON, compression -/

inductive CommandType where
  | create | merge | editStatement | setLabel | setDescription
  | setAlias | setSitelink | unknown
  deriving DecidableEq

inductive CommandModifier where
  | remove
  deriving DecidableEq

structure PropertyValue where
  property : EntityValue
  value : QSValue
  deriving DecidableEq

/-- `QuickStatementsParser` (one parsed command line). -/
structure QSP where
  command : CommandType
  item : Option EntityID
  targetItem : Option EntityID
  property : Option EntityValue
  value : Option QSValue
  modifier : Option CommandModifier
  references : List PropertyValue
  qualifiers : List PropertyValue
  sitelink : Option SiteLink
  localeString : Option LocaleString
  comment : Option String
  createData : Option Json

/-- `QuickStatementsParser::new_blank`. -/
def QSP.newBlank : QSP :=
  ⟨.unknown, none, none, none, none, none, [], [], none, none, none, none⟩

def QSP.newBlankWithComment (comment : Option String) : QSP :=
  { QSP.newBlank with comment := comment }

/-- `QuickStatementsParser::get_action`. -/
def QSP.getAction (p : QSP) : String :=
  match p.modifier with
  | some .remove => "remove"
  | _ => "add"

/-- `RE_COMMENT = ^(.*)/\x2a\s*(.*?)\s*\x2a/(.*)$`: the greedy first
group places the comment opener at the last `/·*` still followed by a
closer; the lazy body then ends at the first closer, trimmed. -/
def parseComment (line : String) : String × Option String :=
  let l := line.data
  let openPat := ['/', '*']
  let closePat := ['*', '/']
  let closesFrom := fun (i : Nat) =>
    (List.range l.length).filter (fun j => i + 2 ≤ j ∧ closePat.isPrefixOf (l.drop j))
  let opens := (List.range l.length).filter
    (fun i => openPat.isPrefixOf (l.drop i) ∧ closesFrom i ≠ [])
  match opens.getLast? with
  | some i =>
    match closesFrom i with
    | j :: _ =>
      (⟨l.take i ++ l.drop (j + 2)⟩, some ⟨trimChars ((l.drop (i + 2)).take (j - (i + 2)))⟩)
    | [] => (line, none)
  | none => (line, none)

/-- `line.replace("||", "\t")` (non-overlapping, left to right). -/
def replacePipes : List Char → List Char
  | '|' :: '|' :: rest => '\t' :: replacePipes rest
  | c :: rest => c :: replacePipes rest
  | [] => []

/-- `RE_META = ^ *([LDAS]) *([a-z_-]+) *$`. -/
def metaCapture (l : List Char) : Option (Char × String) :=
  match l.dropWhile (fun c => c = ' ') with
  | c :: rest =>
    if c = 'L' ∨ c = 'D' ∨ c = 'A' ∨ c = 'S' then
      let rest := rest.dropWhile (fun c => c = ' ')
      let key := rest.takeWhile (fun c => isLowerAlpha c || c = '_' || c = '-')
      if key ≠ [] ∧ (rest.drop key.length).all (fun c => c = ' ') then
        some (c, ⟨key⟩)
      else none
    else none
  | [] => none

/-- `RE_PROPERTY = ^[Pp]\d+$`. -/
def propertyMatch (l : List Char) : Bool :=
  match l with
  | c :: rest => (c = 'P' || c = 'p') && !rest.isEmpty && rest.all isAsciiDigit
  | [] => false

/-- `RE_REF_QUAL = ^([PS])(\d+)$`. -/
def refQualCapture (l : List Char) : Option (Char × String) :=
  match l with
  | c :: rest =>
    if (c = 'P' ∨ c = 'S') ∧ rest ≠ [] ∧ rest.all isAsciiDigit then
      some (c, ⟨rest⟩)
    else none
  | [] => none

/-- `QuickStatementsParser::parse_command_modifier` (also returns the
possibly rewritten first column). -/
def parseCommandModifier (first : String) : Option CommandModifier × String :=
  match first.data with
  | [] => (none, first)
  | '-' :: rest => (some .remove, trimStr ⟨rest⟩)
  | _ => (none, first)

/-- `QuickStatementsParser::parse_property_id`. -/
def parsePropertyId (prop : String) : Except String EntityValue :=
  match parseItemId (some prop) with
  | .error e => .error e
  | .ok .last => .error "LAST is not a valid property"
  | .ok (.id ev) =>
    if ev.entityType ≠ .property then .error (prop ++ " is not a property")
    else .ok ev

/-- `QuickStatementsParser::new_create`. -/
def QSP.newCreate (comment : Option String) : Except String QSP :=
  .ok { QSP.newBlankWithComment comment with command := .create }

/-- `QuickStatementsParser::new_merge`. -/
def QSP.newMerge (i1 i2 : Option String) (comment : Option String) :
    Except String QSP := do
  let item ← parseItemId i1
  let target ← parseItemId i2
  if item = .last ∨ target = .last then
    .error "MERGE does not allow LAST"
  else
    .ok { QSP.newBlankWithComment comment with
          command := .merge, item := some item, targetItem := some target }

/-- The qualifier/reference pair loop of
`parse_edit_statement_property`.  A `parse_value` failure on a pair
value is an `unwrap` panic in the source; it is modelled as an error. -/
def parsePairs (ret : QSP) : List String → Except String QSP
  | [] => .ok ret
  | p :: tail =>
    match refQualCapture p.data with
    | none => .error ("Bad reference/qualifier key: '" ++ p ++ "'")
    | some (subtype, digits) => do
      let property ← parsePropertyId ("P" ++ digits)
      match tail with
      | [] => .error "Qualifier/Reference key without value"
      | v :: tail2 =>
        match parseValue v with
        | none => .error "parse_value unwrap panic"
        | some value =>
          if subtype = 'S' then
            parsePairs { ret with references := ret.references ++ [⟨property, value⟩] } tail2
          else
            parsePairs { ret with qualifiers := ret.qualifiers ++ [⟨property, value⟩] } tail2

/-- `QuickStatementsParser::parse_edit_statement_property`. -/
def parseEditStatementProperty (ret : QSP) (parts : List String)
    (second : String) : Except String QSP := do
  let property ← parsePropertyId second
  let value ←
    match parts.get? 2 with
    | some v =>
      match parseValue v with
      | some value => pure value
      | none => .error "Cannot parse value"
    | none => .error "No value given"
  parsePairs { ret with property := some property, value := some value } (parts.drop 3)

/-- `QuickStatementsParser::new_edit_statement`. -/
def QSP.newEditStatement (parts : List String) (comment : Option String) :
    Except String QSP := do
  let ret := { QSP.newBlankWithComment comment with command := .editStatement }
  let first ←
    match parts.head? with
    | some s => pure (strToUpper (trimStr s))
    | none => .error "Missing column 1"
  let (modifier, first) := parseCommandModifier first
  let item ← parseItemId (some first)
  let ret := { ret with modifier := modifier, item := some item }
  let second ←
    match parts.get? 1 with
    | some s => pure (trimStr s)
    | none => .error "Missing column 2"
  if propertyMatch second.data then
    parseEditStatementProperty ret parts (strToUpper second)
  else
    .error "Cannot parse commands"

/-- `QuickStatementsParser::new_from_line` with `api = None` (so the
page-title resolution, which needs the network, resolves nothing). -/
def QSP.newFromLine (line : String) : Except String QSP := do
  let (line, comment) := parseComment line
  let parts : List String :=
    (splitOnChar '\t' (replacePipes (trimChars line.data))).map (fun l => (⟨l⟩ : String))
  if parts.isEmpty then .error "Empty string"
  else
    match strToUpper ((parts.head?).getD "") with
    | "CREATE" => QSP.newCreate comment
    | "MERGE" => QSP.newMerge (parts.get? 1) (parts.get? 2) comment
    | _ =>
      if parts.length < 3 then .error "No valid command"
      else
        match metaCapture (((parts.get? 1).getD "").data) with
        | some (family, key) => do
          let value ←
            match parseValue ((parts.get? 2).getD "") with
            | some (QSValue.stringV s) => pure s
            | _ => .error ("Bad value: '" ++ (parts.get? 2).getD "" ++ "'")
          let ret := QSP.newBlankWithComment comment
          let first := (parts.head?).getD ""
          let (modifier, first) := parseCommandModifier first
          let item ← parseItemId (some first)
          let ret := { ret with modifier := modifier, item := some item }
          match family with
          | 'L' => .ok { ret with command := .setLabel, localeString := some ⟨key, value⟩ }
          | 'D' => .ok { ret with command := .setDescription, localeString := some ⟨key, value⟩ }
          | 'A' => .ok { ret with command := .setAlias, localeString := some ⟨key, value⟩ }
          | 'S' => .ok { ret with command := .setSitelink, sitelink := some ⟨key, value⟩ }
          | _ => .error "Bad command"
        | none => QSP.newEditStatement parts comment

/-- Serde serialization of `LocaleString`. -/
def localeStringJson (s : LocaleString) : Json :=
  .obj [("language", .str s.language), ("value", .str s.value)]

/-- `QuickStatementsParser::to_json`. -/
def QSP.toJson (p : QSP) : Except String (List Json) :=
  match p.command with
  | .editStatement => do
    let base := Json.obj [("action", .str p.getAction), ("what", .str "statement")]
    let base :=
      match p.comment with
      | some c => base.setKey "summary" (.str c)
      | none => base
    let base ←
      match p.item with
      | some id => pure (base.setKey "item" (.str id.toStr))
      | none => .error "No item set"
    let base ←
      match p.property with
      | some ev => pure (base.setKey "property" (.str ev.id))
      | none => .error "No property set"
    let base ←
      match p.value with
      | some v => pure (base.setKey "datavalue" v.toJson)
      | none => .error "No value set"
    if p.modifier = some .remove then
      .ok [base]
    else
      let ret := [base]
      let ret := ret ++ p.qualifiers.map (fun qual =>
        (base.setKey "what" (.str "qualifier")).setKey "qualifier"
          (.obj [("prop", .str qual.property.id), ("value", qual.value.toJson)]))
      let ret :=
        if p.references.isEmpty then ret
        else
          ret ++ [(base.setKey "what" (.str "sources")).setKey "sources"
            (.arr (p.references.map (fun r =>
              .obj [("prop", .str r.property.id), ("value", r.value.toJson)])))]
      .ok ret
  | .create =>
    let ret := Json.obj [("action", .str "create"), ("type", .str "item")]
    let ret :=
      match p.createData with
      | some data => ret.setKey "data" data
      | none => ret
    .ok [ret]
  | .merge =>
    match p.item, p.targetItem with
    | some (.id item2), some (.id item1) =>
      .ok [.obj [("action", .str "merge"), ("item1", .str item1.id),
                 ("item2", .str item2.id), ("type", item1.entityType.toJson)]]
    | _, _ => .error "Merge: either item or target_item is None"
  | .setLabel =>
    match p.item, p.localeString with
    | some (.id item), some ls =>
      .ok [.obj [("action", .str p.getAction), ("item", .str item.id),
                 ("language", .str ls.language), ("value", .str ls.value),
                 ("what", .str "label")]]
    | _, _ => .error "Label issue"
  | .setDescription =>
    match p.item, p.localeString with
    | some (.id item), some ls =>
      .ok [.obj [("action", .str p.getAction), ("item", .str item.id),
                 ("language", .str ls.language), ("value", .str ls.value),
                 ("what", .str "description")]]
    | _, _ => .error "Description issue"
  | .setAlias =>
    match p.item, p.localeString with
    | some (.id item), some ls =>
      .ok [.obj [("action", .str p.getAction), ("item", .str item.id),
                 ("language", .str ls.language), ("value", .str ls.value),
                 ("what", .str "alias")]]
    | _, _ => .error "Alias issue"
  | .setSitelink =>
    match p.item, p.sitelink with
    | some (.id item), some sl =>
      .ok [.obj [("action", .str p.getAction), ("item", .str item.id),
                 ("site", .str sl.site), ("value", .str sl.title),
                 ("what", .str "sitelink")]]
    | _, _ => .error "Sitelink issue"
  | .unknown => .error "Unknown command is not supported"

/-- `QuickStatementsParser::mainsnak`.  (The source `unwrap`s the
property; a successful `to_json` guarantees it is set.) -/
def QSP.mainsnak (p : QSP) : Option Json :=
  match p.toJson with
  | .error _ => none
  | .ok j =>
    match p.property with
    | some pr =>
      some (.obj [("datavalue", ((j.get? 0).getD .null).getKey "datavalue"),
                  ("snaktype", .str "value"), ("property", .str pr.id)])
    | none => none

/-- Ensure `j[k]` is an array, then push `x` onto it
(`if !j[k].is_array() { j[k] = json!([]) } ... push`). -/
def Json.pushToArrKey (j : Json) (k : String) (x : Json) : Json :=
  let old := match (j.getKey k).asArr with
    | some elems => elems
    | none => []
  j.setKey k (.arr (old ++ [x]))

/-- `QuickStatementsParser::compress_add_references_and_qualifiers`. -/
def compressAddReferencesAndQualifiers (statement : Json) (mc : QSP) : Json :=
  let statement :=
    if mc.qualifiers.isEmpty then statement
    else
      mc.qualifiers.foldl (fun st qual =>
        st.pushToArrKey "qualifiers"
          (.obj [("datavalue", qual.value.toJson), ("property", .str qual.property.id),
                 ("snaktype", .str "value")])) statement
  if mc.references.isEmpty then statement
  else
    let r := mc.references.foldl (fun r reference =>
      let property := reference.property.id
      let snaks := r.getKey "snaks"
      let snak := Json.obj [("datavalue", reference.value.toJson),
                            ("property", .str property), ("snaktype", .str "value")]
      let old := match (snaks.getKey property).asArr with
        | some elems => elems
        | none => []
      r.setKey "snaks" (snaks.setKey property (.arr (old ++ [snak]))))
      (Json.obj [("snaks", .obj [])])
    statement.pushToArrKey "references" r

/-- `QuickStatementsParser::compress_edit_statement`. -/
def compressEditStatement (cd : Json) (mc : QSP) : Option Json :=
  match mc.toJson with
  | .error _ => none
  | .ok _ =>
    let cd := if (cd.getKey "claims").isArr then cd else cd.setKey "claims" (.arr [])
    match mc.mainsnak with
    | none => none
    | some ms =>
      let statement := Json.obj [("mainsnak", ms), ("rank", .str "normal"),
                                 ("type", .str "statement")]
      let claims := match (cd.getKey "claims").asArr with
        | some elems => elems
        | none => []
      let found := claims.any (fun s => Json.beq (s.getKey "mainsnak") ms)
      let claims := claims.map (fun s =>
        if Json.beq (s.getKey "mainsnak") ms then
          compressAddReferencesAndQualifiers s mc
        else s)
      if found then some (cd.setKey "claims" (.arr claims))
      else
        some (cd.setKey "claims"
          (.arr (claims ++ [compressAddReferencesAndQualifiers statement mc])))

/-- `QuickStatementsParser::compress_command_pair`. -/
def compressCommandPair (createCommand mc : QSP) : Option Json :=
  let cd := match createCommand.createData with
    | some cd => cd
    | none => .obj []
  match mc.command with
  | .editStatement => compressEditStatement cd mc
  | .setLabel =>
    mc.localeString.map (fun s =>
      cd.setKey "labels" ((cd.getKey "labels").setKey s.language (localeStringJson s)))
  | .setDescription =>
    mc.localeString.map (fun s =>
      cd.setKey "descriptions"
        ((cd.getKey "descriptions").setKey s.language (localeStringJson s)))
  | .setAlias =>
    mc.localeString.map (fun s =>
      let aliases := cd.getKey "aliases"
      let entry := match (aliases.getKey s.language).asArr with
        | some elems => Json.arr (elems ++ [localeStringJson s])
        | none => Json.arr [localeStringJson s]
      cd.setKey "aliases" (aliases.setKey s.language entry))
  | .setSitelink =>
    mc.sitelink.map (fun s =>
      cd.setKey "sitelinks" ((cd.getKey "sitelinks").setKey s.site
        (.obj [("site", .str s.site), ("title", .str s.title)])))
  | _ => none

/-- The index loop of `QuickStatementsParser::compress`, rephrased as
recursion on the commands after the current fold candidate `prev`: a
successful fold removes the candidate and keeps `prev` (the same index
is re-examined); any failure advances past `prev`. -/
def compressGo (prev : QSP) : List QSP → List QSP
  | [] => [prev]
  | c :: cs =>
    if c.item = some .last ∧ c.getAction = "add" ∧ prev.command = .create then
      match compressCommandPair prev c with
      | some cd => compressGo { prev with createData := some cd } cs
      | none => prev :: compressGo c cs
    else prev :: compressGo c cs

/-- `QuickStatementsParser::compress` (the pass starts at index 1). -/
def QSP.compress : List QSP → List QSP
  | [] => []
  | c :: cs => compressGo c cs

example : parseValue "+2019" =
    some (QSValue.quantity ⟨⟨2019, 0⟩, none, "1", none⟩) := by decide
example : parseValue "Q5" =
    some (QSValue.entity (.id ⟨.item, "Q5"⟩)) := by decide
example : parseValue "en:\"hello\"" =
    some (QSValue.monoLingualText ⟨"hello", "en"⟩) := by decide
example : parseValue "\"foo\"" = some (QSValue.stringV "foo") := by decide
example : parseTime "+2019-06-07T12:13:14Z/8".data =
    some (QSValue.time ⟨"+2019-06-07T12:13:14Z".data, 8, gregorianCalendar⟩) := by decide
example : parseTime "+2019".data =
    some (QSValue.time ⟨"+2019-01-01T00:00:00Z".data, 9, gregorianCalendar⟩) := by decide
example : parseValue "-0.123" =
    some (QSValue.quantity ⟨⟨-123, 3⟩, none, "1", none⟩) := by decide
example : parseValue "-0.321~0.045U123" =
    some (QSValue.quantity ⟨⟨-321, 3⟩, some ⟨-366000, 6⟩,
      "http://www.wikidata.org/entity/Q123", some ⟨-276000, 6⟩⟩) := by decide
example : parseValue "4.56[-1.23,7.89]" =
    some (QSValue.quantity ⟨⟨456, 2⟩, some ⟨-123, 2⟩, "1", some ⟨789, 2⟩⟩) := by decide
example : parseValue "@-123.45/67.89" =
    some (QSValue.globeCoordinate ⟨globeEarth, ⟨-12345, 2⟩, ⟨6789, 2⟩⟩) := by decide

/-! ### qs_command: compiling one queued command against an entity

`QuickStatementsCommand` carries its JSON; the compile functions below
take that JSON (`cmd`) and the loaded entity snapshot, exactly as the
`&self` methods of qs_command.rs read `self.json`. -/

/-- `QuickStatementsCommand::fix_entity_id`. -/
def fixEntityId (id : String) : String := strToUpper (trimStr id)

/-- `RE_PROP = ^P\d+$` of `check_prop`. -/
def rePropMatch (l : List Char) : Bool :=
  match l with
  | 'P' :: rest => !rest.isEmpty && rest.all isAsciiDigit
  | _ => false

/-- `QuickStatementsCommand::check_prop`. -/
def checkProp (s : String) : Except String String :=
  if rePropMatch s.data then .ok s
  else .error ("'" ++ s ++ "' is not a property")

/-- `QuickStatementsCommand::already_done`: the no-network sentinel. -/
def alreadyDone : Json := .obj [("already_done", .num 1)]

/-- `get_snak_type_for_datavalue` (same code in qs_command and qs_bot). -/
def getSnakTypeForDatavalue (dv : Json) : Except String String :=
  if (dv.getKey "value").isObj then .ok "value"
  else
    match (dv.getKey "value").asStr with
    | some "novalue" => .ok "novalue"
    | some "somevalue" => .ok "somevalue"
    | some _ => .ok "value"
    | none => .error "Cannot determine snak type"

/-- The greedy-with-backtracking `0*` of `RE_TIME` in
`is_same_datavalue`: drop leading zeros, but leave at least one
character for the final `(.+)` group. -/
def stripZeros (l : List Char) : List Char :=
  let z := (l.takeWhile (fun c => c = '0')).length
  l.drop (min z (l.length - 1))

/-- `RE_TIME = ^([+-]{0,1})0*(.+)$ → $1$2` of `is_same_datavalue`
(`replace_all` with an anchored pattern applies at most once; an empty
string has no match and is returned unchanged). -/
def normTime (l : List Char) : List Char :=
  match l with
  | [] => []
  | c :: rest =>
    if (c = '+' ∨ c = '-') ∧ rest ≠ [] then c :: stripZeros rest
    else stripZeros l

/-- `QuickStatementsCommand::is_same_datavalue` (dv1 is the typed value
from the entity snapshot, dv2 the command's datavalue JSON). -/
def isSameDatavalue (dv1 : DataValue) (dv2 : Json) : Option Bool := do
  let t2 ← (dv2.getKey "type").asStr
  if dv1.valueType.stringValue ≠ t2 then
    pure false
  else
    let v2 := dv2.getKey "value"
    match dv1.value with
    | .coordinate v => do
      let globe ← (v2.getKey "globe").asStr
      let lat ← (v2.getKey "latitude").asF64
      let lon ← (v2.getKey "longitude").asF64
      pure (v.globe = globe ∧ v.latitude.deq lat ∧ v.longitude.deq lon)
    | .monoLingual v => do
      let lang ← (v2.getKey "language").asStr
      let text ← (v2.getKey "text").asStr
      pure (v.language = lang ∧ v.text = text)
    | .entity v => do
      let id ← (v2.getKey "id").asStr
      pure (v.id = id)
    | .quantity v => do
      let s ← (v2.getKey "amount").asStr
      let a ← parseF64 s.data
      pure (v.amount.deq a)
    | .stringValue v => do
      let s ← v2.asStr
      pure (v = s)
    | .time v => do
      let t2s ← (v2.getKey "time").asStr
      let cal ← (v2.getKey "calendarmodel").asStr
      pure (v.calendarmodel = cal ∧ normTime v.time = normTime t2s.data)

/-- The claim scan of `QuickStatementsCommand::get_statement_id`:
first claim whose main snak has the command's property and a datavalue
equal under `is_same_datavalue`; a matching claim without an id is an
error; no match is `Ok(None)`. -/
def scanClaims (property : String) (datavalue : Json) :
    List WbStatement → Except String (Option String)
  | [] => .ok none
  | claim :: rest =>
    if claim.mainsnak.property ≠ property then scanClaims property datavalue rest
    else
      match claim.mainsnak.datavalue with
      | none => scanClaims property datavalue rest
      | some dv =>
        match isSameDatavalue dv datavalue with
        | some true =>
          match claim.id with
          | some id => .ok (some id)
          | none => .error "get_statement_id: claim has no id"
        | some false => scanClaims property datavalue rest
        | none => scanClaims property datavalue rest

/-- `QuickStatementsCommand::get_statement_id`. -/
def getStatementId (cmd : Json) (item : Entity) : Except String (Option String) :=
  match (cmd.getKey "property").asStr with
  | none => .error "get_statement_id: Property expected but not set"
  | some property => scanClaims property (cmd.getKey "datavalue") item.claims

/-- `QuickStatementsCommand::get_prefixed_id` (identity in the source). -/
def getPrefixedId (s : String) : String := s

/-- `title.replace(" ", "_")` of the sitelink idempotency check. -/
def underscoreTitle (s : String) : String :=
  ⟨s.data.map (fun c => if c = ' ' then '_' else c)⟩

/-- `QuickStatementsCommand::action_remove_statement`. -/
def actionRemoveStatement (statementId : String) : Except String Json :=
  .ok (.obj [("action", .str "wbremoveclaims"), ("claim", .str statementId)])

/-- `QuickStatementsCommand::action_set_sitelink`. -/
def actionSetSitelink (cmd : Json) (item : Entity) : Except String Json :=
  match (cmd.getKey "site").asStr with
  | none => .error "site not set"
  | some site =>
    match (cmd.getKey "value").asStr with
    | none => .error "value (title) not set"
    | some title =>
      let matched :=
        match item.sitelinks with
        | some sitelinks =>
          sitelinks.any (fun sl =>
            sl.site = site ∧ underscoreTitle sl.title = underscoreTitle title)
        | none => false
      if matched then .ok alreadyDone
      else
        .ok (.obj [("action", .str "wbsetsitelink"), ("id", .str (getPrefixedId item.id)),
                   ("linksite", .str site), ("linktitle", .str title)])

/-- `QuickStatementsCommand::action_remove_sitelink` (runs the sitelink
compile with the title forced to `""`). -/
def actionRemoveSitelink (cmd : Json) (item : Entity) : Except String Json :=
  actionSetSitelink (cmd.setKey "value" (.str "")) item

/-- `QuickStatementsCommand::action_set_label`. -/
def actionSetLabel (cmd : Json) (item : Entity) : Except String Json :=
  match (cmd.getKey "language").asStr with
  | none => .error "Can't find language"
  | some language =>
    match (cmd.getKey "value").asStr with
    | none => .error "Can't find text (=value)"
    | some text =>
      if item.labelInLocale language = some text then .ok alreadyDone
      else
        .ok (.obj [("action", .str "wbsetlabel"), ("id", .str (getPrefixedId item.id)),
                   ("language", .str language), ("value", .str text)])

/-- `QuickStatementsCommand::action_set_description`. -/
def actionSetDescription (cmd : Json) (item : Entity) : Except String Json :=
  match (cmd.getKey "language").asStr with
  | none => .error "Can't find language"
  | some language =>
    match (cmd.getKey "value").asStr with
    | none => .error "Can't find text (=value)"
    | some text =>
      if item.descriptionInLocale language = some text then .ok alreadyDone
      else
        .ok (.obj [("action", .str "wbsetdescription"), ("id", .str (getPrefixedId item.id)),
                   ("language", .str language), ("value", .str text)])

/-- `QuickStatementsCommand::action_add_alias`. -/
def actionAddAlias (cmd : Json) (item : Entity) : Except String Json :=
  match (cmd.getKey "language").asStr with
  | none => .error "Can't find language"
  | some language =>
    match (cmd.getKey "value").asStr with
    | none => .error "Can't find text (=value)"
    | some text =>
      .ok (.obj [("action", .str "wbsetaliases"), ("id", .str (getPrefixedId item.id)),
                 ("language", .str language), ("add", .str text)])

/-- `QuickStatementsCommand::action_add_statement`. -/
def actionAddStatement (cmd : Json) (item : Entity) : Except String Json :=
  match getStatementId cmd item with
  | .error e => .error e
  | .ok (some _) => .ok alreadyDone
  | .ok none =>
    let q := item.id
    match (cmd.getKey "property").asStr with
    | none => .error "Property not found"
    | some property =>
      let value := Json.render ((cmd.getKey "datavalue").getKey "value")
      match getSnakTypeForDatavalue (cmd.getKey "datavalue") with
      | .error e => .error e
      | .ok snaktype =>
        .ok (.obj [("action", .str "wbcreateclaim"), ("entity", .str (getPrefixedId q)),
                   ("snaktype", .str snaktype), ("property", .str property),
                   ("value", .str value)])

/-- `QuickStatementsCommand::action_add_qualifier`. -/
def actionAddQualifier (cmd : Json) (item : Entity) : Except String Json :=
  match getStatementId cmd item with
  | .error e => .error e
  | .ok none => .error "add_qualifier: Could not get statement ID"
  | .ok (some statementId) =>
    match
      (match ((cmd.getKey "qualifier").getKey "prop").asStr with
       | some p => checkProp p
       | none => .error "Incomplete command parameters: prop") with
    | .error e => .error e
    | .ok qualProp =>
      let qualValue := ((cmd.getKey "qualifier").getKey "value").getKey "value"
      if (qualValue.asStr).isNone ∧ ¬qualValue.isObj then
        .error "Incomplete command parameters: value.value"
      else
        match getSnakTypeForDatavalue (cmd.getKey "qualifier") with
        | .error e => .error e
        | .ok snaktype =>
          .ok (.obj [("action", .str "wbsetqualifier"), ("claim", .str statementId),
                     ("property", .str qualProp), ("value", .str (Json.render qualValue)),
                     ("snaktype", .str snaktype)])

/-- The snak-group accumulation of `action_add_sources`. -/
def buildSnaks (snaks : Json) : List Json → Except String Json
  | [] => .ok snaks
  | source :: rest =>
    match (source.getKey "prop").asStr with
    | none => .error "No prop value in source"
    | some prop =>
      match checkProp prop with
      | .error e => .error e
      | .ok prop =>
        match getSnakTypeForDatavalue source with
        | .error e => .error e
        | .ok snaktype =>
          let snak :=
            if snaktype = "value" then
              Json.obj [("property", .str prop), ("snaktype", .str "value"),
                        ("datavalue", source.getKey "value")]
            else
              Json.obj [("property", .str prop), ("snaktype", .str snaktype)]
          buildSnaks (snaks.pushToArrKey prop snak) rest

/-- `QuickStatementsCommand::action_add_sources`. -/
def actionAddSources (cmd : Json) (item : Entity) : Except String Json :=
  match getStatementId cmd item with
  | .error e => .error e
  | .ok none => .error "add_sources: Could not get statement ID"
  | .ok (some statementId) =>
    match
      (match (cmd.getKey "sources").asArr with
       | some sources => buildSnaks (.obj []) sources
       | none => .error "Incomplete command parameters: sources") with
    | .error e => .error e
    | .ok snaks =>
      .ok (.obj [("action", .str "wbsetreference"), ("statement", .str statementId),
                 ("snaks", .str (Json.render snaks))])

/-- `QuickStatementsCommand::action_create_entity`. -/
def actionCreateEntity (cmd : Json) : Except String Json :=
  let data :=
    if (cmd.getKey "data").isObj then Json.render (cmd.getKey "data")
    else "\x7b\x7d"
  match (cmd.getKey "type").asStr with
  | none => .error "No type set"
  | some newType =>
    .ok (.obj [("action", .str "wbeditentity"), ("new", .str newType),
               ("data", .str data)])

/-- `QuickStatementsCommand::action_merge_entities`. -/
def actionMergeEntities (cmd : Json) : Except String Json :=
  if ¬cmd.isObj then .error "Not a valid command"
  else
    match (cmd.getKey "item1").asStr with
    | none => .error "item1 not set"
    | some item1 =>
      match (cmd.getKey "item2").asStr with
      | none => .error "item2 not set"
      | some item2 =>
        .ok (.obj [("action", .str "wbmergeitems"), ("fromid", .str item1),
                   ("toid", .str item2), ("ignoreconflicts", .str "description")])

/-- `QuickStatementsCommand::add_to_entity` (the source `expect`s the
entity; a missing entity is modelled as an error). -/
def addToEntity (cmd : Json) (item : Option Entity) : Except String Json :=
  match item with
  | none => .error "panic: add_to_entity: item is None"
  | some item =>
    match (cmd.getKey "what").asStr with
    | some "label" => actionSetLabel cmd item
    | some "alias" => actionAddAlias cmd item
    | some "description" => actionSetDescription cmd item
    | some "sitelink" => actionSetSitelink cmd item
    | some "statement" => actionAddStatement cmd item
    | some "qualifier" => actionAddQualifier cmd item
    | some "sources" => actionAddSources cmd item
    | _ => .error "Bad 'what'"

/-- `QuickStatementsCommand::remove_from_entity`. -/
def removeFromEntity (cmd : Json) (item : Option Entity) : Except String Json :=
  match item with
  | none => .error "panic: remove_from_entity: item is None"
  | some item =>
    match (cmd.getKey "what").asStr with
    | some "statement" =>
      (match getStatementId cmd item with
       | .error e => .error e
       | .ok (some id) => actionRemoveStatement id
       | .ok none => .error "remove_statement: Statement not found")
    | some "sitelink" => actionRemoveSitelink cmd item
    | _ => .error "Bad 'what'"

/-- `QuickStatementsCommand::get_action`. -/
def commandAction (cmd : Json) : Except String String :=
  match (cmd.getKey "action").asStr with
  | none => .error "No action in command"
  | some "" => .error "Empty action in command"
  | some s => .ok s

/-- `QuickStatementsCommand::action_to_execute`. -/
def actionToExecute (cmd : Json) (mainItem : Option Entity) : Except String Json :=
  match commandAction cmd with
  | .error e => .error e
  | .ok "add" => addToEntity cmd mainItem
  | .ok "create" => actionCreateEntity cmd
  | .ok "merge" => actionMergeEntities cmd
  | .ok "remove" => removeFromEntity cmd mainItem
  | .ok other => .error ("Unknown action '" ++ other ++ "'")

/-- `QuickStatementsCommand::replace_last_item` (applied to one
datavalue-shaped JSON node; the source mutates in place and always
returns `Ok`, so it is modelled as returning the new node). -/
def replaceLastItem (v : Json) (lastEntityId : Option String) : Json :=
  if ¬v.isObj then v
  else
    match lastEntityId with
    | none => v
    | some last =>
      match (v.getKey "type").asStr with
      | some "wikibase-entityid" =>
        (match ((v.getKey "value").getKey "id").asStr with
         | some id =>
           if fixEntityId id = "LAST" then
             v.setKey "value" ((v.getKey "value").setKey "id" (.str last))
           else v
         | none => v)
      | _ => v

/-- `QuickStatementsCommand::insert_last_item_into_sources_and_qualifiers`
(`propagateLastItem`): substitutes the subject and walks the datavalue,
the qualifier value and every source.  The `&mut json[...]` indexing of
the source inserts missing intermediate keys (`datavalue` as `Null`,
`qualifier` as an object), which the `getKey`/`setKey` pairs reproduce. -/
def insertLastItem (cmd : Json) (lastEntityId : Option String) : Json :=
  match lastEntityId with
  | none => cmd
  | some q =>
    let j := cmd
    let j :=
      if (j.getKey "item").asStr = some "LAST" then j.setKey "item" (.str q)
      else j
    let j := j.setKey "datavalue" (replaceLastItem (j.getKey "datavalue") lastEntityId)
    let j := j.setKey "qualifier" ((j.getKey "qualifier").setKey "value"
      (replaceLastItem ((j.getKey "qualifier").getKey "value") lastEntityId))
    match (j.getKey "sources").asArr with
    | some arr => j.setKey "sources" (.arr (arr.map (fun v => replaceLastItem v lastEntityId)))
    | none => j

/-! ### qs_bot: the per-batch executor

The MySQL writes of `set_command_status` and the HTTP POST of
`run_action` are external; the executor is modelled as a transformer of
the in-memory bot state (`last_entity_id`, `current_entity_id`,
`current_property_id`), taking the wiki API response JSON as an
argument.  The entity cache (`self.entities`) is not consulted by any
claim and is left out of the state. -/

structure BotState where
  lastEntityId : Option String
  currentEntityId : Option String
  currentPropertyId : Option String
  deriving DecidableEq

/-- `wikibase::entity_diff::EntityDiff::get_entity_id` (external crate):
the id of an entity JSON (spec section 4.6: the affected entity's id as
reported by the response). -/
def getEntityIdFromJson (entityJson : Json) : Option String :=
  (entityJson.getKey "id").asStr

/-- `QuickStatementsBot::reset_entities`: on a successful action, record
the affected entity as `last_entity_id` — the command's `item` unless it
is literally `LAST`, otherwise the id of the entity in the response.
(The cache eviction on the same paths has no observable effect here.) -/
def resetEntities (st : BotState) (res : Json) (cmdJson : Json) : BotState :=
  let fallback :=
    match res.getKey "entity" with
    | .null => st
    | entityJson =>
      match getEntityIdFromJson entityJson with
      | some q => { st with lastEntityId := some q }
      | none => st
  match (cmdJson.getKey "item").asStr with
  | some q => if strToUpper q ≠ "LAST" then { st with lastEntityId := some q } else fallback
  | none => fallback

/-- `QuickStatementsBot::set_command_status`: the in-memory effect (the
DB write is external).  On `DONE` the last entity id is unconditionally
overwritten with `current_entity_id`. -/
def setCommandStatus (st : BotState) (status : String) : BotState :=
  if status = "DONE" then { st with lastEntityId := st.currentEntityId } else st

/-- The parameter-map construction of `run_action`: every value of the
action JSON must be a string. -/
def actionParamsOk (j : Json) : Except String Unit :=
  match j with
  | .obj fields =>
    if fields.all (fun kv => (kv.2.asStr).isSome) then .ok ()
    else .error "run_action: Can't as_str a parameter value"
  | _ => .error "run_action: j is not an object"

/-- `QuickStatementsBot::run_action` given the API response: classify
the response, reset entities on success, record `error.info` in the
command's `meta.message` when no success flag is present.  There is no
retry of any kind: every non-success response is returned as an error. -/
def runAction (st : BotState) (j : Json) (cmd : Json) (response : Json) :
    BotState × Json × Except String Unit :=
  match actionParamsOk j with
  | .error e => (st, cmd, .error e)
  | .ok _ =>
    match (response.getKey "success").asI64 with
    | some n =>
      if n = 1 then (resetEntities st response cmd, cmd, .ok ())
      else (st, cmd, .error "Success flag is not 1 in API result")
    | none =>
      let cmd :=
        match ((response.getKey "error").getKey "info").asStr with
        | some s => cmd.setKey "meta" ((cmd.getKey "meta").setKey "message" (.str s))
        | none => cmd
      (st, cmd, .error "No success flag set in API result")

/-- `QuickStatementsBot::create_new_entity`. -/
def createNewEntity (st : BotState) (cmd : Json) (response : Json) :
    BotState × Json × Except String Unit :=
  let data :=
    if (cmd.getKey "data").isObj then Json.render (cmd.getKey "data")
    else "\x7b\x7d"
  match (cmd.getKey "type").asStr with
  | none => (st, cmd, .error "No type set")
  | some newType =>
    runAction st
      (.obj [("action", .str "wbeditentity"), ("new", .str newType),
             ("data", .str data)])
      cmd response

/-- `QuickStatementsBot::execute_command`, create arm: mark RUN, clear
the current ids, run `create_new_entity`, then mark DONE or ERROR
(which persists `last_entity_id` through `set_command_status`). -/
def executeCreateCommand (st : BotState) (cmd : Json) (response : Json) :
    BotState × Json × String :=
  let st := setCommandStatus st "RUN"
  let st := { st with currentPropertyId := none, currentEntityId := none }
  let (st, cmd, result) := createNewEntity st cmd response
  match result with
  | .error _ => (setCommandStatus st "ERROR", cmd, "ERROR")
  | .ok _ => (setCommandStatus st "DONE", cmd, "DONE")

/-! ## Claim theorems -/

/-! ### C1 -/

/-- The create-arm pipeline used by claim C1: the submitted command is
`{"action":"create","type":"item"}` and the wiki responds with success
and the new entity `Q999`. -/
def c1Cmd : Json := .obj [("action", .str "create"), ("type", .str "item")]

def c1Resp : Json :=
  .obj [("success", .num 1), ("entity", .obj [("id", .str "Q999")])]

/-- Claim C1: on success the executor updates `last_entity_id` to the
affected entity's id, and in particular after a successful CREATE the
batch's `last_entity_id` equals the id of the newly created entity.
The code violates the CREATE part: `run_action`'s success path
(`reset_entities`) does record the new entity `Q999` as
`last_entity_id`, but `set_command_status("DONE")` then unconditionally
overwrites `last_entity_id` with `current_entity_id`, which is `None`
throughout the create arm — so the "DONE" command ends with
`last_entity_id = none`, not `some "Q999"`.  (The older copy of the bot
in src/src/lib.rs guards this assignment with
`current_entity_id.is_some()`, confirming the intent.) -/
theorem c1_create_success_loses_last_entity_id :
    (createNewEntity ⟨none, none, none⟩ c1Cmd c1Resp).1.lastEntityId = some "Q999" ∧
    (executeCreateCommand ⟨none, none, none⟩ c1Cmd c1Resp).2.2 = "DONE" ∧
    (executeCreateCommand ⟨none, none, none⟩ c1Cmd c1Resp).1.lastEntityId = none ∧
    (∀ st : BotState, (setCommandStatus st "DONE").lastEntityId = st.currentEntityId) ∧
    (∀ st : BotState, (setCommandStatus st "ERROR").lastEntityId = st.lastEntityId) ∧
    (∀ st res cmdJson q, (cmdJson.getKey "item").asStr = some q →
      strToUpper q ≠ "LAST" → (resetEntities st res cmdJson).lastEntityId = some q) := by
  refine ⟨rfl, rfl, rfl, fun st => rfl, fun st => rfl, fun st res cmdJson q hq hne => ?_⟩
  simp only [resetEntities, hq]
  rw [if_pos hne]

/-! ### C3 -/

/-- Parse `MERGE\tQ123\tQ456` and compile the resulting command JSON
to its wire action (`action_merge_entities`). -/
def c3Pipeline : Except String Json := do
  let p ← QSP.newFromLine "MERGE\tQ123\tQ456"
  let js ← p.toJson
  match js with
  | [cmdJson] => actionMergeEntities cmdJson
  | _ => .error "not exactly one command"

/-- Claim C3 as stated is false: the wire action emitted for
`MERGE\tQ123\tQ456` is
`{"action":"wbmergeitems","fromid":"Q456","toid":"Q123","ignoreconflicts":"description"}`
— it carries no `"type"` key, so it is not equal to the claimed object
that additionally contains `"type":"item"`. -/
theorem c3_counterexample_wire_action_has_no_type :
    c3Pipeline = Except.ok (.obj [("action", .str "wbmergeitems"),
      ("fromid", .str "Q456"), ("toid", .str "Q123"),
      ("ignoreconflicts", .str "description")]) ∧
    (Json.obj [("action", .str "wbmergeitems"), ("fromid", .str "Q456"),
      ("toid", .str "Q123"), ("ignoreconflicts", .str "description")]).getKey "type" =
      Json.null ∧
    c3Pipeline ≠ Except.ok (.obj [("action", .str "wbmergeitems"),
      ("fromid", .str "Q456"), ("toid", .str "Q123"),
      ("ignoreconflicts", .str "description"), ("type", .str "item")]) := by
  refine ⟨rfl, rfl, fun h => ?_⟩
  rw [show c3Pipeline = Except.ok (.obj [("action", .str "wbmergeitems"),
      ("fromid", .str "Q456"), ("toid", .str "Q123"),
      ("ignoreconflicts", .str "description")]) from rfl] at h
  simp at h

/-- Claim C3 amended: parsing `MERGE\tQ123\tQ456` yields the command
JSON `{"action":"merge","item1":"Q456","item2":"Q123","type":"item"}`
(the first listed entity becomes `item2`/`toid`), and compiling it
emits exactly one wire action
`{"action":"wbmergeitems","fromid":"Q456","toid":"Q123","ignoreconflicts":"description"}`,
which carries no `"type"` key. -/
theorem c3_merge_wire_action :
    ((QSP.newFromLine "MERGE\tQ123\tQ456").bind QSP.toJson) =
      Except.ok [.obj [("action", .str "merge"), ("item1", .str "Q456"),
        ("item2", .str "Q123"), ("type", .str "item")]] ∧
    c3Pipeline = Except.ok (.obj [("action", .str "wbmergeitems"),
      ("fromid", .str "Q456"), ("toid", .str "Q123"),
      ("ignoreconflicts", .str "description")]) := by
  exact ⟨rfl, rfl⟩

/-! ### C9 -/

/-- A wiki API response reporting the edit throttle. -/
def throttleResp : Json :=
  .obj [("error", .obj [("info", .str "too many edits"),
    ("messages", .arr [.obj [("name", .str "actionthrottledtext")]])])]

/-- Claim C9 as stated is false: on a response whose
`error.messages[0].name` is `"actionthrottledtext"`, `run_action` does
not sleep and retry — it records `error.info` in the command's
`meta.message` and returns an error (so the command will be marked
ERROR).  There is no throttle handling anywhere in the action runner. -/
theorem c9_counterexample_throttle_returns_error :
    (((throttleResp.getKey "error").getKey "messages").asArr.bind
      (fun l => (l.get? 0).map (fun m => (m.getKey "name").asStr))) =
      some (some "actionthrottledtext") ∧
    runAction ⟨none, none, none⟩ (.obj [("action", .str "wbsetlabel")])
        c1Cmd throttleResp =
      (⟨none, none, none⟩,
       c1Cmd.setKey "meta" ((c1Cmd.getKey "meta").setKey "message"
         (.str "too many edits")),
       Except.error "No success flag set in API result") := by
  exact ⟨rfl, rfl⟩

/-- Claim C9 amended: when the response to a submitted action carries no
`success` flag (which includes the throttle error), the action runner
does not retry; it stores `error.info` (when present) in the command's
`meta.message` and returns an error, which the executor turns into
command status ERROR. -/
theorem c9_no_success_flag_is_error (st : BotState) (j cmd res : Json) (s : String)
    (hok : actionParamsOk j = .ok ())
    (hsucc : (res.getKey "success").asI64 = none)
    (hinfo : ((res.getKey "error").getKey "info").asStr = some s) :
    runAction st j cmd res =
      (st, cmd.setKey "meta" ((cmd.getKey "meta").setKey "message" (.str s)),
       Except.error "No success flag set in API result") := by
  simp only [runAction, hok, hsucc, hinfo]

/-- Witness for C9's amended theorem at the throttle response. -/
theorem c9_no_success_flag_is_error_witness :
    runAction ⟨none, none, none⟩ (.obj [("action", .str "wbsetlabel")])
        c1Cmd throttleResp =
      (⟨none, none, none⟩,
       c1Cmd.setKey "meta" ((c1Cmd.getKey "meta").setKey "message"
         (.str "too many edits")),
       Except.error "No success flag set in API result") :=
  c9_no_success_flag_is_error ⟨none, none, none⟩ _ _ _ "too many edits" rfl rfl rfl

/-! ### C4 -/

/-- The `data` payload claim C4 expects for the compressed sequence. -/
def c4ExpectedData : Json :=
  .obj [("labels", .obj [("en", .obj [("language", .str "en"), ("value", .str "foo")])]),
        ("claims", .arr [.obj [
          ("mainsnak", .obj [
            ("datavalue", .obj [("type", .str "wikibase-entityid"),
              ("value", .obj [("entity-type", .str "item"), ("id", .str "Q5")])]),
            ("snaktype", .str "value"), ("property", .str "P31")]),
          ("rank", .str "normal"), ("type", .str "statement")]])]

/-- Claim C4: compressing the parsed sequence `CREATE`,
`LAST\tLen\t"foo"`, `LAST\tP31\tQ5` yields a single `Create` command
whose `create_data` is exactly the claimed JSON; and in the compression
pass a successful fold removes the folded command and re-examines the
same position (the recursion continues with the updated create command
against the remaining list), while any failure to fold advances the
index (the head is emitted and the pass moves on). -/
theorem c4_compression :
    ((do
      let a ← QSP.newFromLine "CREATE"
      let b ← QSP.newFromLine "LAST\tLen\t\"foo\""
      let c ← QSP.newFromLine "LAST\tP31\tQ5"
      pure (QSP.compress [a, b, c])) =
      Except.ok [{ QSP.newBlank with
        command := .create, createData := some c4ExpectedData }]) ∧
    (∀ prev c cs cd,
      c.item = some EntityID.last → c.getAction = "add" → prev.command = .create →
      compressCommandPair prev c = some cd →
      compressGo prev (c :: cs) = compressGo { prev with createData := some cd } cs) ∧
    (∀ prev c cs,
      ¬(c.item = some EntityID.last ∧ c.getAction = "add" ∧ prev.command = .create) →
      compressGo prev (c :: cs) = prev :: compressGo c cs) ∧
    (∀ prev c cs,
      compressCommandPair prev c = none →
      compressGo prev (c :: cs) = prev :: compressGo c cs) := by
  refine ⟨rfl, ?_, ?_, ?_⟩
  · intro prev c cs cd h1 h2 h3 hcd
    simp only [compressGo, h1, h2, h3, and_self, if_true, hcd]
  · intro prev c cs h
    simp only [compressGo, if_neg h]
  · intro prev c cs hnone
    by_cases h : c.item = some EntityID.last ∧ c.getAction = "add" ∧ prev.command = .create
    · simp only [compressGo, h, and_self, if_true, hnone]
    · simp only [compressGo, if_neg h]

/-- Witness for C4's fold equations at concrete commands: folding the
label command into a fresh CREATE succeeds and re-examines in place;
a non-foldable pair (subject is not LAST) advances. -/
theorem c4_compression_witness :
    (compressGo { QSP.newBlank with
        command := .create }
      [{ QSP.newBlank with
         command := .setLabel, item := some EntityID.last,
         localeString := some ⟨"en", "foo"⟩ }] =
      compressGo { QSP.newBlank with
        command := .create,
        createData := some (.obj [("labels",
          .obj [("en", .obj [("language", .str "en"), ("value", .str "foo")])])]) } []) ∧
    (compressGo { QSP.newBlank with
        command := .create }
      [{ QSP.newBlank with
         command := .setLabel,
         item := some (.id ⟨.item, "Q42"⟩), localeString := some ⟨"en", "foo"⟩ }] =
      { QSP.newBlank with
        command := .create } ::
        compressGo { QSP.newBlank with
          command := .setLabel,
          item := some (.id ⟨.item, "Q42"⟩), localeString := some ⟨"en", "foo"⟩ } []) := by
  constructor
  · exact c4_compression.2.1 _ _ _ _ rfl rfl rfl rfl
  · exact c4_compression.2.2.1 _ _ _ (by simp)

/-! ### Shared lemmas about the claim scan -/

/-- When every claim carries an id and some claim matches the command's
property and datavalue, the scan of `get_statement_id` returns an id. -/
theorem scanClaims_finds (prop : String) (dv : Json) :
    ∀ claims : List WbStatement,
    (∀ st ∈ claims, st.id.isSome) →
    (∃ st ∈ claims, st.mainsnak.property = prop ∧
      ∃ d, st.mainsnak.datavalue = some d ∧ isSameDatavalue d dv = some true) →
    ∃ sid, scanClaims prop dv claims = .ok (some sid) := by
  intro claims
  induction claims with
  | nil => intro _ hex; simp at hex
  | cons st rest ih =>
    intro hids hex
    have hrest := ih (fun s hs => hids s (List.mem_cons_of_mem _ hs))
    simp only [scanClaims]
    split
    · rename_i hprop
      apply hrest
      rcases hex with ⟨w, hw, hwp, hdat⟩
      rcases List.mem_cons.mp hw with rfl | hw'
      · exact absurd hwp hprop
      · exact ⟨w, hw', hwp, hdat⟩
    · rename_i hprop
      rw [not_not] at hprop
      split
      · rename_i hdv
        apply hrest
        rcases hex with ⟨w, hw, hwp, d', hwd, hsame'⟩
        rcases List.mem_cons.mp hw with rfl | hw'
        · rw [hdv] at hwd; exact absurd hwd (by simp)
        · exact ⟨w, hw', hwp, d', hwd, hsame'⟩
      · rename_i d hdv
        split
        · split
          · rename_i id hsid
            exact ⟨id, rfl⟩
          · rename_i hsid
            have hid := hids st (List.mem_cons_self _ _)
            rw [hsid] at hid
            simp at hid
        · rename_i hsame
          apply hrest
          rcases hex with ⟨w, hw, hwp, d', hwd, hsame'⟩
          rcases List.mem_cons.mp hw with rfl | hw'
          · rw [hdv] at hwd
            injection hwd with hdd
            subst hdd
            rw [hsame] at hsame'
            exact absurd hsame' (by simp)
          · exact ⟨w, hw', hwp, d', hwd, hsame'⟩
        · rename_i hsame
          apply hrest
          rcases hex with ⟨w, hw, hwp, d', hwd, hsame'⟩
          rcases List.mem_cons.mp hw with rfl | hw'
          · rw [hdv] at hwd
            injection hwd with hdd
            subst hdd
            rw [hsame] at hsame'
            exact absurd hsame' (by simp)
          · exact ⟨w, hw', hwp, d', hwd, hsame'⟩

/-- When no claim matches the command's property and datavalue, the
scan of `get_statement_id` returns `Ok(None)`. -/
theorem scanClaims_none (prop : String) (dv : Json) :
    ∀ claims : List WbStatement,
    (∀ st ∈ claims, st.mainsnak.property = prop →
      ∀ d, st.mainsnak.datavalue = some d → isSameDatavalue d dv ≠ some true) →
    scanClaims prop dv claims = .ok none := by
  intro claims
  induction claims with
  | nil => intro _; rfl
  | cons st rest ih =>
    intro hno
    have hrest := ih (fun s hs hp d hd => hno s (List.mem_cons_of_mem _ hs) hp d hd)
    simp only [scanClaims]
    split
    · exact hrest
    · rename_i hprop
      rw [not_not] at hprop
      split
      · exact hrest
      · rename_i d hdv
        split
        · rename_i hsame
          exact absurd hsame (hno st (List.mem_cons_self _ _) hprop d hdv)
        · exact hrest
        · exact hrest

/-! ### C2 -/

/-- Claim C2: for every add-style command whose edit would be a no-op
on the loaded entity snapshot — the label or description for that
language already equals the target text, a statement with the same
mainsnak property and datavalue (under `is_same_datavalue`) already
exists (every snapshot statement carrying an id, as loaded entities
do), or a sitelink with that site and space/underscore-normalized title
already exists — the compiler returns the `already_done` sentinel,
which is not a wire action (it has no `action` key), so no wire request
is issued. -/
theorem c2_idempotent_add_already_done :
    (∀ cmd item lang text,
      (cmd.getKey "language").asStr = some lang →
      (cmd.getKey "value").asStr = some text →
      item.labelInLocale lang = some text →
      actionSetLabel cmd item = .ok alreadyDone) ∧
    (∀ cmd item lang text,
      (cmd.getKey "language").asStr = some lang →
      (cmd.getKey "value").asStr = some text →
      item.descriptionInLocale lang = some text →
      actionSetDescription cmd item = .ok alreadyDone) ∧
    (∀ cmd item site title sls,
      (cmd.getKey "site").asStr = some site →
      (cmd.getKey "value").asStr = some title →
      item.sitelinks = some sls →
      (∃ sl ∈ sls, sl.site = site ∧ underscoreTitle sl.title = underscoreTitle title) →
      actionSetSitelink cmd item = .ok alreadyDone) ∧
    (∀ cmd item prop,
      (cmd.getKey "property").asStr = some prop →
      (∀ st ∈ item.claims, st.id.isSome) →
      (∃ st ∈ item.claims, st.mainsnak.property = prop ∧
        ∃ d, st.mainsnak.datavalue = some d ∧
          isSameDatavalue d (cmd.getKey "datavalue") = some true) →
      actionAddStatement cmd item = .ok alreadyDone) ∧
    (alreadyDone.getKey "action" = Json.null ∧
     alreadyDone.getKey "already_done" = Json.num 1) := by
  refine ⟨?_, ?_, ?_, ?_, rfl, rfl⟩
  · intro cmd item lang text h1 h2 h3
    simp only [actionSetLabel, h1, h2, h3, if_pos]
  · intro cmd item lang text h1 h2 h3
    simp only [actionSetDescription, h1, h2, h3, if_pos]
  · intro cmd item site title sls h1 h2 h3 hex
    have hmatched : sls.any (fun sl =>
        decide (sl.site = site ∧ underscoreTitle sl.title = underscoreTitle title)) = true := by
      rw [List.any_eq_true]
      rcases hex with ⟨sl, hsl, h⟩
      exact ⟨sl, hsl, by simpa using h⟩
    simp only [actionSetSitelink, h1, h2, h3, hmatched, if_pos]
  · intro cmd item prop h1 hids hex
    obtain ⟨sid, hsid⟩ :=
      scanClaims_finds prop (cmd.getKey "datavalue") item.claims hids hex
    simp only [actionAddStatement, getStatementId, h1, hsid]

/-- Witness for C2 on the four no-op shapes at concrete inputs. -/
theorem c2_idempotent_add_already_done_witness :
    (actionSetLabel (.obj [("language", .str "en"), ("value", .str "Douglas Adams")])
      ⟨"Q42", [⟨"en", "Douglas Adams"⟩], [], [], none⟩ = .ok alreadyDone) ∧
    (actionSetDescription (.obj [("language", .str "en"), ("value", .str "author")])
      ⟨"Q42", [], [⟨"en", "author"⟩], [], none⟩ = .ok alreadyDone) ∧
    (actionSetSitelink (.obj [("site", .str "enwiki"), ("value", .str "Douglas Adams")])
      ⟨"Q42", [], [], [], some [⟨"enwiki", "Douglas_Adams"⟩]⟩ = .ok alreadyDone) ∧
    (actionAddStatement (.obj [("property", .str "P31"),
        ("datavalue", .obj [("type", .str "wikibase-entityid"),
          ("value", .obj [("entity-type", .str "item"), ("id", .str "Q5")])])])
      ⟨"Q42", [], [],
        [⟨some "Q42$abc", ⟨"P31", some ⟨.entityId, .entity ⟨.item, "Q5"⟩⟩⟩⟩], none⟩ =
      .ok alreadyDone) := by
  refine ⟨?_, ?_, ?_, ?_⟩
  · exact c2_idempotent_add_already_done.1 _ _ "en" "Douglas Adams" rfl rfl rfl
  · exact c2_idempotent_add_already_done.2.1 _ _ "en" "author" rfl rfl rfl
  · exact c2_idempotent_add_already_done.2.2.1 _ _ "enwiki" "Douglas Adams"
      [⟨"enwiki", "Douglas_Adams"⟩] rfl rfl rfl
      ⟨⟨"enwiki", "Douglas_Adams"⟩, by simp, rfl, by decide⟩
  · exact c2_idempotent_add_already_done.2.2.2.1 _ _ "P31" rfl
      (by intro st hst; simp at hst; subst hst; rfl)
      ⟨⟨some "Q42$abc", ⟨"P31", some ⟨.entityId, .entity ⟨.item, "Q5"⟩⟩⟩⟩,
        by simp, rfl, ⟨.entityId, .entity ⟨.item, "Q5"⟩⟩, rfl, by decide⟩

/-! ### C8 -/

/-- Claim C8: an add-qualifier, add-references or remove-statement
command compiled against a snapshot containing no statement whose
mainsnak property and datavalue match the command's returns an error —
never a silent success and never `already_done`. -/
theorem c8_missing_base_statement_is_error :
    ∀ cmd item prop,
    (cmd.getKey "property").asStr = some prop →
    (∀ st ∈ item.claims, st.mainsnak.property = prop →
      ∀ d, st.mainsnak.datavalue = some d →
        isSameDatavalue d (cmd.getKey "datavalue") ≠ some true) →
    actionAddQualifier cmd item = .error "add_qualifier: Could not get statement ID" ∧
    actionAddSources cmd item = .error "add_sources: Could not get statement ID" ∧
    ((cmd.getKey "what").asStr = some "statement" →
      removeFromEntity cmd (some item) =
        .error "remove_statement: Statement not found") := by
  intro cmd item prop h1 hno
  have hscan := scanClaims_none prop (cmd.getKey "datavalue") item.claims hno
  refine ⟨?_, ?_, ?_⟩
  · simp only [actionAddQualifier, getStatementId, h1, hscan]
  · simp only [actionAddSources, getStatementId, h1, hscan]
  · intro hwhat
    simp only [removeFromEntity, hwhat, getStatementId, h1, hscan]

/-- Witness for C8: the three commands against an entity with no
matching statement (one statement with a different property). -/
theorem c8_missing_base_statement_is_error_witness :
    (actionAddQualifier (.obj [("what", .str "statement"), ("property", .str "P31"),
        ("datavalue", .obj [("type", .str "wikibase-entityid"),
          ("value", .obj [("entity-type", .str "item"), ("id", .str "Q5")])])])
      ⟨"Q42", [], [], [⟨some "Q42$x", ⟨"P21", some ⟨.entityId, .entity ⟨.item, "Q6581097"⟩⟩⟩⟩], none⟩ =
      .error "add_qualifier: Could not get statement ID") ∧
    (actionAddSources (.obj [("what", .str "statement"), ("property", .str "P31"),
        ("datavalue", .obj [("type", .str "wikibase-entityid"),
          ("value", .obj [("entity-type", .str "item"), ("id", .str "Q5")])])])
      ⟨"Q42", [], [], [⟨some "Q42$x", ⟨"P21", some ⟨.entityId, .entity ⟨.item, "Q6581097"⟩⟩⟩⟩], none⟩ =
      .error "add_sources: Could not get statement ID") ∧
    (removeFromEntity (.obj [("what", .str "statement"), ("property", .str "P31"),
        ("datavalue", .obj [("type", .str "wikibase-entityid"),
          ("value", .obj [("entity-type", .str "item"), ("id", .str "Q5")])])])
      (some ⟨"Q42", [], [], [⟨some "Q42$x", ⟨"P21", some ⟨.entityId, .entity ⟨.item, "Q6581097"⟩⟩⟩⟩], none⟩) =
      .error "remove_statement: Statement not found") := by
  have h := c8_missing_base_statement_is_error
    (.obj [("what", .str "statement"), ("property", .str "P31"),
        ("datavalue", .obj [("type", .str "wikibase-entityid"),
          ("value", .obj [("entity-type", .str "item"), ("id", .str "Q5")])])])
    ⟨"Q42", [], [], [⟨some "Q42$x", ⟨"P21", some ⟨.entityId, .entity ⟨.item, "Q6581097"⟩⟩⟩⟩], none⟩
    "P31" rfl
    (by
      intro st hst hp d hd
      simp at hst
      subst hst
      simp at hp)
  exact ⟨h.1, h.2.1, h.2.2 rfl⟩

/-! ### Lemmas about JSON field update -/

theorem lookup_setField_self (k : String) (x : Json) :
    ∀ f : List (String × Json), (setField k x f).lookup k = some x := by
  intro f
  induction f with
  | nil => simp [setField, List.lookup]
  | cons kv rest ih =>
    obtain ⟨a, v⟩ := kv
    by_cases h : a = k
    · subst h
      simp [setField, List.lookup]
    · simp only [setField, if_neg h, List.lookup, beq_false_of_ne (Ne.symm h)]
      exact ih

theorem lookup_setField_ne (k k' : String) (x : Json) (hne : k ≠ k') :
    ∀ f : List (String × Json), (setField k' x f).lookup k = f.lookup k := by
  intro f
  induction f with
  | nil =>
    simp [setField, List.lookup, beq_false_of_ne hne]
  | cons kv rest ih =>
    obtain ⟨a, v⟩ := kv
    by_cases h : a = k'
    · subst h
      simp only [setField, if_pos rfl, List.lookup, beq_false_of_ne hne]
    · simp only [setField, if_neg h, List.lookup]
      by_cases hk : k = a
      · simp [hk]
      · simp only [beq_false_of_ne hk]
        exact ih

/-- Writing one key leaves every other key unchanged, whatever the
input JSON is. -/
theorem Json.getKey_setKey_ne (j : Json) (k k' : String) (x : Json) (hne : k ≠ k') :
    (j.setKey k' x).getKey k = j.getKey k := by
  cases j with
  | obj fields =>
    simp only [Json.setKey, Json.getKey]
    rw [lookup_setField_ne k k' x hne]
  | null =>
    simp [Json.setKey, Json.getKey, List.lookup, beq_false_of_ne hne]
  | bool b => rfl
  | num q => rfl
  | str s => rfl
  | arr elems => rfl

/-- Writing a key of an object makes that key read back the new value. -/
theorem Json.getKey_setKey_self (j : Json) (k : String) (x : Json)
    (h : j.isObj = true) : (j.setKey k x).getKey k = x := by
  cases j with
  | obj fields =>
    simp only [Json.setKey, Json.getKey]
    rw [lookup_setField_self]
  | null => simp [Json.isObj] at h
  | bool b => simp [Json.isObj] at h
  | num q => simp [Json.isObj] at h
  | str s => simp [Json.isObj] at h
  | arr elems => simp [Json.isObj] at h

/-- A non-null `getKey` forces the JSON to be an object. -/
theorem Json.isObj_of_getKey_ne_null (j : Json) (k : String)
    (h : j.getKey k ≠ Json.null) : j.isObj = true := by
  cases j with
  | obj fields => rfl
  | null => exact absurd rfl h
  | bool b => exact absurd rfl h
  | num q => exact absurd rfl h
  | str s => exact absurd rfl h
  | arr elems => exact absurd rfl h

/-! ### C10 -/

/-- Claim C10: `replace_last_item` leaves its input JSON unchanged
whenever the input is not an object, the last entity id is unset, the
`type` field is not `"wikibase-entityid"`, or `value.id` is absent or
does not normalize (trim + uppercase) to `LAST`; when it substitutes,
the only field it modifies is `value.id`: every other field of the
node and of its `value` object reads back unchanged, and the command
JSON around the substituted node is touched only at the four keys
(`item`, `datavalue`, `qualifier`, `sources`) the propagation walks. -/
theorem c10_replace_last_item_frame :
    (∀ v last, v.isObj = false → replaceLastItem v last = v) ∧
    (∀ v, replaceLastItem v none = v) ∧
    (∀ v last, (v.getKey "type").asStr ≠ some "wikibase-entityid" →
      replaceLastItem v (some last) = v) ∧
    (∀ v last, ((v.getKey "value").getKey "id").asStr = none →
      replaceLastItem v (some last) = v) ∧
    (∀ v last id, ((v.getKey "value").getKey "id").asStr = some id →
      fixEntityId id ≠ "LAST" → replaceLastItem v (some last) = v) ∧
    (∀ v last id, v.isObj = true →
      (v.getKey "type").asStr = some "wikibase-entityid" →
      ((v.getKey "value").getKey "id").asStr = some id →
      fixEntityId id = "LAST" →
      ((replaceLastItem v (some last)).getKey "value").getKey "id" = .str last ∧
      (∀ k, k ≠ "value" →
        (replaceLastItem v (some last)).getKey k = v.getKey k) ∧
      (∀ k, k ≠ "id" →
        ((replaceLastItem v (some last)).getKey "value").getKey k =
          (v.getKey "value").getKey k)) ∧
    (∀ cmd last k, k ≠ "item" → k ≠ "datavalue" → k ≠ "qualifier" → k ≠ "sources" →
      (insertLastItem cmd last).getKey k = cmd.getKey k) := by
  refine ⟨?_, ?_, ?_, ?_, ?_, ?_, ?_⟩
  · intro v last h
    simp [replaceLastItem, h]
  · intro v
    by_cases h : v.isObj
    · simp [replaceLastItem, h]
    · simp [replaceLastItem, h]
  · intro v last h
    by_cases hobj : v.isObj
    · simp only [replaceLastItem, hobj, not_true_eq_false, if_false]
    · simp [replaceLastItem, hobj]
  · intro v last h
    by_cases hobj : v.isObj
    · simp only [replaceLastItem, hobj, not_true_eq_false, if_false]
      split
      · rw [h]
      · rfl
    · simp [replaceLastItem, hobj]
  · intro v last id hid hfix
    by_cases hobj : v.isObj
    · simp only [replaceLastItem, hobj, not_true_eq_false, if_false]
      split
      · rw [hid]
        simp only [if_neg hfix]
      · rfl
    · simp [replaceLastItem, hobj]
  · intro v last id hobj htype hid hfix
    have hval : (v.getKey "value").isObj = true := by
      apply Json.isObj_of_getKey_ne_null _ "id"
      intro hnull
      rw [hnull] at hid
      simp [Json.asStr] at hid
    have hrw : replaceLastItem v (some last) =
        v.setKey "value" ((v.getKey "value").setKey "id" (.str last)) := by
      simp only [replaceLastItem, hobj, not_true_eq_false, if_false, htype, hid,
        if_pos hfix]
    refine ⟨?_, ?_, ?_⟩
    · rw [hrw, Json.getKey_setKey_self v _ _ hobj, Json.getKey_setKey_self _ _ _ hval]
    · intro k hk
      rw [hrw, Json.getKey_setKey_ne _ _ _ _ hk]
    · intro k hk
      rw [hrw, Json.getKey_setKey_self v _ _ hobj, Json.getKey_setKey_ne _ _ _ _ hk]
  · intro cmd last k h1 h2 h3 h4
    cases last with
    | none => rfl
    | some q =>
      simp only [insertLastItem]
      by_cases hitem : (cmd.getKey "item").asStr = some "LAST"
      · rw [if_pos hitem]
        cases harr : (((((cmd.setKey "item" (.str q)).setKey "datavalue"
            (replaceLastItem ((cmd.setKey "item" (.str q)).getKey "datavalue")
              (some q))).setKey "qualifier" _).getKey "sources")).asArr with
        | none =>
          simp only [harr]
          rw [Json.getKey_setKey_ne _ _ _ _ h3, Json.getKey_setKey_ne _ _ _ _ h2,
            Json.getKey_setKey_ne _ _ _ _ h1]
        | some arr =>
          simp only [harr]
          rw [Json.getKey_setKey_ne _ _ _ _ h4, Json.getKey_setKey_ne _ _ _ _ h3,
            Json.getKey_setKey_ne _ _ _ _ h2, Json.getKey_setKey_ne _ _ _ _ h1]
      · rw [if_neg hitem]
        cases harr : ((((cmd.setKey "datavalue"
            (replaceLastItem (cmd.getKey "datavalue") (some q))).setKey "qualifier"
              _).getKey "sources")).asArr with
        | none =>
          simp only [harr]
          rw [Json.getKey_setKey_ne _ _ _ _ h3, Json.getKey_setKey_ne _ _ _ _ h2]
        | some arr =>
          simp only [harr]
          rw [Json.getKey_setKey_ne _ _ _ _ h4, Json.getKey_setKey_ne _ _ _ _ h3,
            Json.getKey_setKey_ne _ _ _ _ h2]

/-- The concrete LAST entity reference used by the C10 witness. -/
def c10Node : Json :=
  .obj [("type", .str "wikibase-entityid"),
        ("value", .obj [("entity-type", .str "item"), ("id", .str "LAST")])]

/-- Witness for C10 at concrete nodes: a non-entity node is unchanged;
a LAST entity reference has exactly `value.id` rewritten. -/
theorem c10_replace_last_item_frame_witness :
    (replaceLastItem (.obj [("type", .str "string"), ("value", .str "x")])
      (some "Q7") = .obj [("type", .str "string"), ("value", .str "x")]) ∧
    (((replaceLastItem c10Node (some "Q7")).getKey "value").getKey "id" =
      .str "Q7") ∧
    ((replaceLastItem c10Node (some "Q7")).getKey "type" =
      .str "wikibase-entityid") ∧
    (((replaceLastItem c10Node (some "Q7")).getKey "value").getKey "entity-type" =
      .str "item") := by
  have h := c10_replace_last_item_frame.2.2.2.2.2.1 c10Node "Q7" "LAST"
    rfl rfl rfl (by decide)
  refine ⟨?_, h.1, ?_, ?_⟩
  · exact c10_replace_last_item_frame.2.2.1 _ "Q7" (by decide)
  · rw [h.2.1 "type" (by decide)]
    rfl
  · rw [h.2.2 "entity-type" (by decide)]
    rfl

/-! ### C5 -/

/-- Claim C5: `parse_value` tries the alternatives in the fixed order
coordinate, quantity, time, monolingual text, quoted string, entity id,
and the first matching alternative decides the result (inside the
coordinate arm a failing float parse yields `None` for the whole parse
rather than falling through).  A bare signed decimal such as `+2019` is
a Quantity even though the time parser also accepts it.  The
monolingual-text regex binds capture 2 (the quoted part) as the text
and capture 1 (the class prefix) as the language. -/
theorem c5_value_parse_priority :
    (∀ s a b, coordCaptures (trimChars s.data) = some (a, b) →
      parseValue s = (match parseF64 a, parseF64 b with
        | some lat, some lon => some (QSValue.globeCoordinate ⟨globeEarth, lat, lon⟩)
        | _, _ => none)) ∧
    (∀ s t, coordCaptures (trimChars s.data) = none →
      parseQuantity (trimChars s.data) = some t →
      parseValue s = some t) ∧
    (∀ s t, coordCaptures (trimChars s.data) = none →
      parseQuantity (trimChars s.data) = none →
      parseTime (trimChars s.data) = some t →
      parseValue s = some t) ∧
    (∀ s lang text, coordCaptures (trimChars s.data) = none →
      parseQuantity (trimChars s.data) = none →
      parseTime (trimChars s.data) = none →
      monoCaptures (trimChars s.data) = some (lang, text) →
      parseValue s = some (QSValue.monoLingualText ⟨text, lang⟩)) ∧
    (∀ s text, coordCaptures (trimChars s.data) = none →
      parseQuantity (trimChars s.data) = none →
      parseTime (trimChars s.data) = none →
      monoCaptures (trimChars s.data) = none →
      stringCapture (trimChars s.data) = some text →
      parseValue s = some (QSValue.stringV text)) ∧
    (∀ s id, coordCaptures (trimChars s.data) = none →
      parseQuantity (trimChars s.data) = none →
      parseTime (trimChars s.data) = none →
      monoCaptures (trimChars s.data) = none →
      stringCapture (trimChars s.data) = none →
      parseItemId (some ⟨trimChars s.data⟩) = .ok id →
      parseValue s = some (QSValue.entity id)) ∧
    (parseValue "+2019" = some (QSValue.quantity ⟨⟨2019, 0⟩, none, "1", none⟩) ∧
     parseTime (trimChars "+2019".data) =
       some (QSValue.time ⟨"+2019-01-01T00:00:00Z".data, 9, gregorianCalendar⟩)) ∧
    (parseValue "en:\"hello\"" = some (QSValue.monoLingualText ⟨"hello", "en"⟩)) := by
  refine ⟨?_, ?_, ?_, ?_, ?_, ?_, ⟨by decide, by decide⟩, by decide⟩
  · intro s a b h
    simp only [parseValue, h]
  · intro s t h1 h2
    simp only [parseValue, h1, h2]
  · intro s t h1 h2 h3
    simp only [parseValue, h1, h2, h3]
  · intro s lang text h1 h2 h3 h4
    simp only [parseValue, h1, h2, h3, h4]
  · intro s text h1 h2 h3 h4 h5
    simp only [parseValue, h1, h2, h3, h4, h5]
  · intro s id h1 h2 h3 h4 h5 h6
    simp only [parseValue, h1, h2, h3, h4, h5, h6]

/-- Witness for C5's priority chain: the quantity alternative decides
`+2019` (conjunct 2), and the monolingual alternative decides
`fr:"texte"` with text capture 2 and language capture 1 (conjunct 4). -/
theorem c5_value_parse_priority_witness :
    parseValue "+2019" = some (QSValue.quantity ⟨⟨2019, 0⟩, none, "1", none⟩) ∧
    parseValue "fr:\"texte\"" = some (QSValue.monoLingualText ⟨"texte", "fr"⟩) := by
  constructor
  · exact c5_value_parse_priority.2.1 "+2019" _ (by decide) (by decide)
  · exact c5_value_parse_priority.2.2.2.1 "fr:\"texte\"" "fr" "texte"
      (by decide) (by decide) (by decide) (by decide)

/-! ### C6 helpers -/

theorem clampPrecision_day_zero (p m : Nat) : clampPrecision p m 0 ≤ 10 := by
  unfold clampPrecision
  simp only [phpCompatibility]
  split_ifs <;> first | omega | (simp_all; omega) | simp_all

theorem clampPrecision_month_zero (p d : Nat) : clampPrecision p 0 d ≤ 9 := by
  unfold clampPrecision
  simp only [phpCompatibility]
  split_ifs <;> first | omega | (simp_all; omega) | simp_all

/-- `str::split` yields a single segment when the separator is absent. -/
theorem splitOnChar_of_not_mem (sep : Char) :
    ∀ l : List Char, sep ∉ l → splitOnChar sep l = [l] := by
  intro l
  induction l with
  | nil => intro _; rfl
  | cons c rest ih =>
    intro h
    have hc : c ≠ sep := fun hh => h (hh ▸ List.mem_cons_self c rest)
    have hr : sep ∉ rest := fun hh => h (List.mem_cons_of_mem _ hh)
    simp only [splitOnChar, ih hr]
    rw [if_neg hc]

/-! ### C6 -/

/-- Claim C6: for every string the time parser accepts — a missing
`/precision` suffix defaults the precision to 9; a body with only a
year component (no date separators after the `T`/`:`/`Z` rewriting)
defaults month and day to 1 and hour/minute/second to 0; and the
precision is clamped downward when lower fields are 0: day 0 forces
precision at most 10 and month 0 forces at most 9 (stated both for the
clamp itself and for every parse result). -/
theorem c6_time_defaults_and_clamp :
    (∀ p m d, d = 0 → clampPrecision p m d ≤ 10) ∧
    (∀ p m d, m = 0 → clampPrecision p m d ≤ 9) ∧
    (∀ s f, parseTimeFields s = some f →
      (f.day = 0 → f.precision ≤ 10) ∧ (f.month = 0 → f.precision ≤ 9)) ∧
    (∀ s f, parseRawTimeFields s = some f →
      precisionCapture (stripSignTime s).2 = none → f.precision = 9) ∧
    (∀ s f, parseRawTimeFields s = some f →
      '-' ∉ timeReplace (precSplit (stripSignTime s).2).1 →
      f.month = 1 ∧ f.day = 1 ∧ f.hour = 0 ∧ f.minute = 0 ∧ f.second = 0) := by
  refine ⟨fun p m d hd => hd ▸ clampPrecision_day_zero p m,
          fun p m d hm => hm ▸ clampPrecision_month_zero p d, ?_, ?_, ?_⟩
  · intro s f h
    rw [parseTimeFields, Option.map_eq_some'] at h
    obtain ⟨g, _, hg⟩ := h
    subst hg
    constructor
    · intro hd
      have hday : g.day = 0 := hd
      show clampPrecision g.precision g.month g.day ≤ 10
      rw [hday]
      exact clampPrecision_day_zero _ _
    · intro hm
      have hmonth : g.month = 0 := hm
      show clampPrecision g.precision g.month g.day ≤ 9
      rw [hmonth]
      exact clampPrecision_month_zero _ _
  · intro s f h hnop
    have hps : precSplit (stripSignTime s).2 = ((stripSignTime s).2, 9) := by
      simp [precSplit, hnop]
    simp only [parseRawTimeFields, hps] at h
    split at h
    · split at h
      · exact absurd h (by simp)
      · split at h
        · injection h with h
          subst h
          rfl
        · exact absurd h (by simp)
    · exact absurd h (by simp)
  · intro s f h hsep
    simp only [parseRawTimeFields] at h
    rw [splitOnChar_of_not_mem '-' _ hsep] at h
    split at h
    · split at h
      · rename_i heq
        exact absurd heq (by simp)
      · rename_i yearRaw rest heq
        injection heq with heq1 heq2
        subst heq1
        have hrest : rest = [] := heq2.symm
        subst hrest
        simp only [show (([] : List (List Char)).get? 0).getD ['1'] = ['1'] from rfl,
          show (([] : List (List Char)).get? 1).getD ['1'] = ['1'] from rfl,
          show (([] : List (List Char)).get? 2).getD ['0'] = ['0'] from rfl,
          show (([] : List (List Char)).get? 3).getD ['0'] = ['0'] from rfl,
          show (([] : List (List Char)).get? 4).getD ['0'] = ['0'] from rfl,
          show parseNatDigits ['1'] = some 1 from by decide,
          show parseNatDigits ['0'] = some 0 from by decide] at h
        split at h
        · injection h with h
          subst h
          simp_all
        · exact absurd h (by simp)
    · exact absurd h (by simp)

/-- Witness for C6: the year-only input `2019` parses with precision 9
and all defaults; the input `2019-00-00/11` has day 0 and month 0, and
its parsed precision is clamped to at most 9. -/
theorem c6_time_defaults_and_clamp_witness :
    (∀ f, parseRawTimeFields "2019".data = some f → f.precision = 9) ∧
    (∀ f, parseRawTimeFields "2019".data = some f →
      f.month = 1 ∧ f.day = 1 ∧ f.hour = 0 ∧ f.minute = 0 ∧ f.second = 0) ∧
    (∀ f, parseTimeFields "2019-00-00/11".data = some f → f.precision ≤ 9) ∧
    parseTimeFields "2019-00-00/11".data =
      some ⟨'+', [], 2019, 0, 0, 0, 0, 0, 9⟩ := by
  refine ⟨?_, ?_, ?_, by decide⟩
  · intro f h
    exact c6_time_defaults_and_clamp.2.2.2.1 "2019".data f h (by decide)
  · intro f h
    exact c6_time_defaults_and_clamp.2.2.2.2 "2019".data f h (by decide)
  · intro f h
    refine (c6_time_defaults_and_clamp.2.2.1 "2019-00-00/11".data f h).2 ?_
    have hp : parseTimeFields "2019-00-00/11".data =
        some ⟨'+', [], 2019, 0, 0, 0, 0, 0, 9⟩ := by decide
    rw [hp] at h
    injection h with h
    rw [← h]

/-! ### C7 helpers -/

theorem takeWhile_zeros_append (core : List Char)
    (h : ∀ c cs, core = c :: cs → c ≠ '0') :
    ∀ k, ((List.replicate k '0' ++ core).takeWhile (fun c => c = '0')).length = k := by
  intro k
  induction k with
  | zero =>
    simp only [List.replicate, List.nil_append]
    cases core with
    | nil => rfl
    | cons c cs =>
      simp only [List.takeWhile]
      rw [show (decide (c = '0')) = false from decide_eq_false (h c cs rfl)]
      rfl
  | succ k ih =>
    rw [show List.replicate (k + 1) '0' ++ core =
      '0' :: (List.replicate k '0' ++ core) from by simp [List.replicate]]
    simp [List.takeWhile_cons, ih]
    intro hl
    cases core with
    | nil => simp at hl
    | cons c cs => simpa using h c cs rfl

theorem stripZeros_replicate_append (k : Nat) (core : List Char)
    (hne : core ≠ []) (h0 : ∀ c cs, core = c :: cs → c ≠ '0') :
    stripZeros (List.replicate k '0' ++ core) = core := by
  have hz := takeWhile_zeros_append core h0 k
  have hlen : (List.replicate k '0' ++ core).length = k + core.length := by
    simp [List.length_append]
  have hcore : 1 ≤ core.length := by
    cases core with
    | nil => exact absurd rfl hne
    | cons c cs => simp
  simp only [stripZeros, hz, hlen]
  have hmin : min k (k + core.length - 1) = k := by omega
  rw [hmin]
  have hdrop := List.drop_left (List.replicate k '0') core
  rw [List.length_replicate] at hdrop
  exact hdrop

/-- Leading zeros after the optional sign are erased by the `RE_TIME`
normalization, leaving sign and core. -/
theorem normTime_sign_zeros (sgn : List Char) (k : Nat) (core : List Char)
    (hsgn : sgn = [] ∨ sgn = ['+'] ∨ sgn = ['-'])
    (hcore : ∃ c cs, core = c :: cs ∧ isAsciiDigit c = true) :
    (∀ c cs, core = c :: cs → c ≠ '0') →
    normTime (sgn ++ List.replicate k '0' ++ core) = sgn ++ core := by
  intro h0
  obtain ⟨c, cs, hc, hdig⟩ := hcore
  have hne : core ≠ [] := by rw [hc]; simp
  have hdigne : c ≠ '+' ∧ c ≠ '-' := by
    constructor
    · intro hh
      rw [hh] at hdig
      exact absurd hdig (by decide)
    · intro hh
      rw [hh] at hdig
      exact absurd hdig (by decide)
  have hstrip := stripZeros_replicate_append k core hne h0
  have happne : (List.replicate k '0' ++ core) ≠ [] := by simp [hne]
  rcases hsgn with rfl | rfl | rfl
  · cases k with
    | zero =>
      show normTime ([] ++ List.replicate 0 '0' ++ core) = [] ++ core
      simp only [List.replicate, List.nil_append]
      rw [hc]
      rw [show normTime (c :: cs) =
        (if ((c = '+' ∨ c = '-') ∧ cs ≠ []) then c :: stripZeros cs
         else stripZeros (c :: cs)) from rfl]
      rw [if_neg (by
        intro hcontra
        rcases hcontra.1 with hp | hm
        · exact hdigne.1 hp
        · exact hdigne.2 hm)]
      rw [← hc]
      have hs : stripZeros core = core := by simpa using hstrip
      exact hs
    | succ k =>
      show normTime ([] ++ List.replicate (k + 1) '0' ++ core) = [] ++ core
      simp only [List.nil_append]
      rw [show List.replicate (k + 1) '0' ++ core =
        '0' :: (List.replicate k '0' ++ core) from by simp [List.replicate]]
      rw [show normTime ('0' :: (List.replicate k '0' ++ core)) =
        (if (('0' = '+' ∨ '0' = '-') ∧ (List.replicate k '0' ++ core) ≠ []) then
          '0' :: stripZeros (List.replicate k '0' ++ core)
         else stripZeros ('0' :: (List.replicate k '0' ++ core))) from rfl]
      rw [if_neg (by
        intro hcontra
        rcases hcontra.1 with hp | hm
        · exact absurd hp (by decide)
        · exact absurd hm (by decide))]
      rw [show ('0' :: (List.replicate k '0' ++ core)) =
        List.replicate (k + 1) '0' ++ core from by simp [List.replicate]]
      exact hstrip
  · show normTime ('+' :: (List.replicate k '0' ++ core)) = '+' :: core
    rw [show normTime ('+' :: (List.replicate k '0' ++ core)) =
      (if (('+' = '+' ∨ '+' = '-') ∧ (List.replicate k '0' ++ core) ≠ []) then
        '+' :: stripZeros (List.replicate k '0' ++ core)
       else stripZeros ('+' :: (List.replicate k '0' ++ core))) from rfl]
    rw [if_pos ⟨Or.inl rfl, happne⟩, hstrip]
  · show normTime ('-' :: (List.replicate k '0' ++ core)) = '-' :: core
    rw [show normTime ('-' :: (List.replicate k '0' ++ core)) =
      (if (('-' = '+' ∨ '-' = '-') ∧ (List.replicate k '0' ++ core) ≠ []) then
        '-' :: stripZeros (List.replicate k '0' ++ core)
       else stripZeros ('-' :: (List.replicate k '0' ++ core))) from rfl]
    rw [if_pos ⟨Or.inr rfl, happne⟩, hstrip]

/-! ### C7 -/

/-- Claim C7: two Time datavalues with the same calendar model whose
time strings differ only in leading zeros of the year (after the
optional sign) are equal under `is_same_datavalue`: both sides are
normalized by `^([+-]?)0*(.+)$ → $1$2` before comparison.  (The
precisions may even differ — the comparison reads only calendar model
and normalized time string.) -/
theorem c7_time_leading_zero_equality
    (sgn : List Char) (a b : Nat) (core : List Char) (p1 p2 : Nat) (cal : String)
    (hsgn : sgn = [] ∨ sgn = ['+'] ∨ sgn = ['-'])
    (hcore : ∃ c cs, core = c :: cs ∧ isAsciiDigit c = true ∧ c ≠ '0') :
    isSameDatavalue
      ⟨.timeValue, .time ⟨sgn ++ List.replicate a '0' ++ core, p1, cal⟩⟩
      (QSValue.toJson (.time ⟨sgn ++ List.replicate b '0' ++ core, p2, cal⟩)) =
    some true := by
  obtain ⟨c, cs, hc, hdig, hnz⟩ := hcore
  have h0 : ∀ c' cs', core = c' :: cs' → c' ≠ '0' := by
    intro c' cs' hh
    rw [hc] at hh
    injection hh with h1 _
    rw [← h1]
    exact hnz
  have h1 := normTime_sign_zeros sgn a core hsgn ⟨c, cs, hc, hdig⟩ h0
  have h2 := normTime_sign_zeros sgn b core hsgn ⟨c, cs, hc, hdig⟩ h0
  rw [show isSameDatavalue
      ⟨.timeValue, .time ⟨sgn ++ List.replicate a '0' ++ core, p1, cal⟩⟩
      (QSValue.toJson (.time ⟨sgn ++ List.replicate b '0' ++ core, p2, cal⟩)) =
    some (decide (cal = cal ∧
      normTime (sgn ++ List.replicate a '0' ++ core) =
        normTime (sgn ++ List.replicate b '0' ++ core))) from rfl]
  rw [h1, h2]
  simp

/-- Witness for C7: `+02019-…` and `+2019-…` compare equal (with
differing precisions). -/
theorem c7_time_leading_zero_equality_witness :
    isSameDatavalue
      ⟨.timeValue, .time ⟨"+02019-01-01T00:00:00Z".data, 9, gregorianCalendar⟩⟩
      (QSValue.toJson
        (.time ⟨"+2019-01-01T00:00:00Z".data, 11, gregorianCalendar⟩)) =
    some true := by
  have h := c7_time_leading_zero_equality ['+'] 1 0 "2019-01-01T00:00:00Z".data
    9 11 gregorianCalendar (Or.inr (Or.inl rfl))
    ⟨'2', "019-01-01T00:00:00Z".data, by decide, by decide, by decide⟩
  rw [show "+02019-01-01T00:00:00Z".data =
    ['+'] ++ List.replicate 1 '0' ++ "2019-01-01T00:00:00Z".data from by decide]
  rw [show "+2019-01-01T00:00:00Z".data =
    ['+'] ++ List.replicate 0 '0' ++ "2019-01-01T00:00:00Z".data from by decide]
  exact h
